import Mathlib

/-!
Verification of the process spawner in src/src/libpsl-native/src/createprocess.cpp
(`ForkAndExecProcess` and its helpers `CloseIfOpen`, `CheckInterrupted`,
`Dup2WithInterruptedRetry`).

The C function is embedded as a pure Lean function over an explicit oracle
(`OsBehavior`) that fixes the outcome of every system call the function can
make.  File descriptors created by `pipe` are modelled as fresh integers
`firstFd, firstFd + 1, ...`; `errno` is threaded explicitly; the fork
boundary is modelled by the oracle choosing which of the two control paths
(parent or child) the evaluation follows.  Stores through the four out
pointers are recorded as events carrying the nullness of the pointer stored
through, so that undefined behavior (a store through a null pointer) is
visible in the model.
-/

namespace CreateProcess

/-- errno value EINVAL (invalid argument), as set by the validation code. -/
def EINVAL : Int := 22

/-- errno value EINTR (interrupted system call), tested by CheckInterrupted. -/
def EINTR : Int := 4

/-- EXIT_FAILURE from stdlib.h, the fallback child exit status. -/
def EXIT_FAILURE : Int := 1

/-- Source, lines 15-18: enum CREATE_NEW_PROCESS_SESSION = 0x00000001. -/
def CREATE_NEW_PROCESS_SESSION : Int := 1

/-- Source, lines 20-24: a pipe array int fds[2] is modelled as a pair whose
first component is fds[READ_END_OF_PIPE] and whose second component is
fds[WRITE_END_OF_PIPE]. -/
def READ_END_OF_PIPE : Nat := 0

/-- Source, lines 20-24: index of the write end in a pipe array. -/
def WRITE_END_OF_PIPE : Nat := 1

/-- Outcome of one raw system call as prescribed by the oracle: `ok r` means
the call returned `r` and left errno alone, `fail e` means it returned -1
after setting errno to `e`. -/
inductive SysOutcome where
  | ok (r : Int)
  | fail (e : Int)
deriving DecidableEq

/-- Oracle for one call site that the source wraps in a
"while (CheckInterrupted(result = ...));" loop: the first `nEintr`
invocations return -1 with errno = EINTR, the following invocation returns
`final`. -/
structure RetriedCall where
  nEintr : Nat
  final : SysOutcome
deriving DecidableEq

/-- Source, lines 36-40: CheckInterrupted returns result < 0 && errno == EINTR. -/
def CheckInterrupted (result errno : Int) : Bool :=
  decide (result < 0) && (errno == EINTR)

/-- Evaluation of a "while (CheckInterrupted(result = call()));" loop under a
`RetriedCall` oracle, starting from the given errno.  Returns
`some (result, errno)` at loop exit, and `none` when the oracle prescribes a
final outcome that itself satisfies CheckInterrupted, in which case the loop
in the source would keep calling forever (real system calls never produce
this). -/
def retryWhileInterrupted : Nat → SysOutcome → Int → Option (Int × Int)
  | 0, SysOutcome.ok r, errno =>
      if CheckInterrupted r errno then none else some (r, errno)
  | 0, SysOutcome.fail e, _ =>
      if CheckInterrupted (-1) e then none else some (-1, e)
  | n + 1, fin, _ => retryWhileInterrupted n fin EINTR

/-- Source, lines 42-47: Dup2WithInterruptedRetry is dup2 wrapped in the
EINTR retry loop; the oracle `c` describes the successive dup2 results. -/
def Dup2WithInterruptedRetry (c : RetriedCall) (errno : Int) : Option (Int × Int) :=
  retryWhileInterrupted c.nEintr c.final errno

/-- Outcome of one pipe(2) call as prescribed by the oracle. -/
inductive PipeOutcome where
  | ok
  | fail (e : Int)
deriving DecidableEq

/-- Outcome of the fork(2) call: failure with an errno, or success observed
from the parent (with the child's pid), or success observed from the child. -/
inductive ForkOutcome where
  | fail (e : Int)
  | parent (pid : Int)
  | child
deriving DecidableEq

/-- The pointer arguments of ForkAndExecProcess, with only their nullness
modelled (their pointees are opaque to this function), plus the value
arguments.  This is the Spawn Request. -/
structure Args where
  filenameNull : Bool
  argvNull : Bool
  envpNull : Bool
  cwdNull : Bool
  redirectStdin : Int
  redirectStdout : Int
  redirectStderr : Int
  creationFlags : Int
  childPidNull : Bool
  stdinFdNull : Bool
  stdoutFdNull : Bool
  stderrFdNull : Bool
deriving DecidableEq

/-- The oracle fixing every system call outcome for one evaluation. -/
structure OsBehavior where
  /-- errno on entry to the function. -/
  initialErrno : Int
  /-- whether access(filename, X_OK) returns 0. -/
  accessOk : Bool
  /-- errno set by access on failure. -/
  accessErrno : Int
  /-- first fresh descriptor number handed out by pipe; successive pipe
  calls hand out consecutive numbers. -/
  firstFd : Int
  pipeStdinOutcome : PipeOutcome
  pipeStdoutOutcome : PipeOutcome
  pipeStderrOutcome : PipeOutcome
  forkOutcome : ForkOutcome
  /-- whether an invoked close() clobbers errno (its return value is
  deliberately ignored by CloseIfOpen, but errno may still change). -/
  closeSetsErrno : Bool
  closeErrno : Int
  dup2StdinCall : RetriedCall
  dup2StdoutCall : RetriedCall
  dup2StderrCall : RetriedCall
  chdirCall : RetriedCall
  setsidCall : RetriedCall
  /-- none: execve succeeds and replaces the image; some e: it returns
  having set errno to e. -/
  execveFailsWith : Option Int
deriving DecidableEq

/-- errno after an invoked close() call: clobbered iff the oracle says so. -/
def closeClobber (os : OsBehavior) (errno : Int) : Int :=
  if os.closeSetsErrno then os.closeErrno else errno

/-- The four out-parameter pointers of ForkAndExecProcess. -/
inductive OutPtr where
  | childPid
  | stdinFd
  | stdoutFd
  | stderrFd
deriving DecidableEq

/-- A store "*ptr = value" performed by the function; `targetNull` records
whether the pointer stored through was null (undefined behavior in C). -/
structure Store where
  target : OutPtr
  targetNull : Bool
  value : Int
deriving DecidableEq

/-- Events of the child branch, in program order. -/
inductive CEvent where
  | closeFd (fd : Int)
  | dup2Step (oldfd newfd : Int)
  | chdirStep
  | setsidStep
  | execveStep
deriving DecidableEq

/-- State threaded through the child branch. -/
structure ChildState where
  errno : Int
  events : List CEvent
  closed : List Int
deriving DecidableEq

/-- How the child branch ends: its image is replaced by execve, or it calls
_exit with a status, or (only under an unrealistic oracle) a retry loop
never exits. -/
inductive ChildEnd where
  | execReplaced
  | exited (status : Int)
  | diverged
deriving DecidableEq

/-- Source, lines 26-32: CloseIfOpen as run by the parent.  It invokes
close(fd) iff fd >= 0; close errors are ignored but errno may be clobbered.
Threads (errno, list of fds actually passed to close). -/
def CloseIfOpenParent (os : OsBehavior) (fd : Int) (p : Int × List Int) : Int × List Int :=
  if 0 ≤ fd then (closeClobber os p.1, p.2 ++ [fd]) else p

/-- Source, lines 26-32: CloseIfOpen as run by the child, additionally
recording the close as an event. -/
def CloseIfOpenChild (os : OsBehavior) (fd : Int) (s : ChildState) : ChildState :=
  if 0 ≤ fd then
    { errno := closeClobber os s.errno,
      events := s.events ++ [CEvent.closeFd fd],
      closed := s.closed ++ [fd] }
  else s

/-- "_exit(errno != 0 ? errno : EXIT_FAILURE)" (lines 126, 139, 151, 157). -/
def exitStatus (errno : Int) : Int := if errno ≠ 0 then errno else EXIT_FAILURE

/-- One disjunct "(redirectX && Dup2WithInterruptedRetry(oldfd, newfd) == -1)"
of the redirection condition at lines 122-127.  `Except.error` carries the
child termination triggered by _exit in the failing case. -/
def childDup2 (redirect : Int) (c : RetriedCall) (oldfd newfd : Int)
    (s : ChildState) : Except (ChildEnd × ChildState) ChildState :=
  if redirect ≠ 0 then
    match Dup2WithInterruptedRetry c s.errno with
    | none =>
        Except.error (ChildEnd.diverged,
          { s with events := s.events ++ [CEvent.dup2Step oldfd newfd] })
    | some (r, e) =>
        let s1 : ChildState :=
          { s with errno := e, events := s.events ++ [CEvent.dup2Step oldfd newfd] }
        if r = -1 then Except.error (ChildEnd.exited (exitStatus s1.errno), s1)
        else Except.ok s1
  else Except.ok s

/-- A retried call followed by "if (result == -1) { _exit(...); }", the
pattern of the chdir block (lines 133-141) and the setsid block
(lines 145-153). -/
def childRetryStep (c : RetriedCall) (evt : CEvent) (s : ChildState) :
    Except (ChildEnd × ChildState) ChildState :=
  match retryWhileInterrupted c.nEintr c.final s.errno with
  | none => Except.error (ChildEnd.diverged, { s with events := s.events ++ [evt] })
  | some (r, e) =>
      let s1 : ChildState := { s with errno := e, events := s.events ++ [evt] }
      if r = -1 then Except.error (ChildEnd.exited (exitStatus e), s1)
      else Except.ok s1

/-- The child branch (processId == 0), lines 113-158 of createprocess.cpp. -/
def childRun (a : Args) (os : OsBehavior)
    (stdinFds stdoutFds stderrFds : Int × Int) (errno0 : Int) :
    ChildEnd × ChildState :=
  let s0 : ChildState := { errno := errno0, events := [], closed := [] }
  -- Close the child's copy of the parent end of any open pipes (116-118)
  let s1 := CloseIfOpenChild os stdinFds.2 s0
  let s2 := CloseIfOpenChild os stdoutFds.1 s1
  let s3 := CloseIfOpenChild os stderrFds.1 s2
  -- dup2 the pipe descriptors onto stdin/out/err (122-127)
  match (childDup2 a.redirectStdin os.dup2StdinCall stdinFds.1 0 s3).bind
      (fun s => (childDup2 a.redirectStdout os.dup2StdoutCall stdoutFds.2 1 s).bind
        (fun s => childDup2 a.redirectStderr os.dup2StderrCall stderrFds.2 2 s)) with
  | Except.error r => r
  | Except.ok s4 =>
    -- close out the old pipe descriptors (128-130)
    let s5 := CloseIfOpenChild os stdinFds.1 s4
    let s6 := CloseIfOpenChild os stdoutFds.2 s5
    let s7 := CloseIfOpenChild os stderrFds.2 s6
    -- chdir to the designated working directory, if one was given (133-141)
    match (if a.cwdNull then Except.ok s7
           else childRetryStep os.chdirCall CEvent.chdirStep s7) with
    | Except.error r => r
    | Except.ok s8 =>
      -- setsid if CREATE_NEW_PROCESS_SESSION was chosen (145-153)
      match (if Int.land a.creationFlags CREATE_NEW_PROCESS_SESSION ≠ 0 then
               childRetryStep os.setsidCall CEvent.setsidStep s8
             else Except.ok s8) with
      | Except.error r => r
      | Except.ok s9 =>
        -- execve; it does not return on success (156-157)
        let s10 : ChildState := { s9 with events := s9.events ++ [CEvent.execveStep] }
        match os.execveFailsWith with
        | none => (ChildEnd.execReplaced, s10)
        | some e =>
            (ChildEnd.exited (exitStatus e), { s10 with errno := e })

/-- What the parent side of one evaluation produced. -/
structure SpawnOutcome where
  /-- the int32_t return value of the function. -/
  ret : Int
  /-- errno when the function returns. -/
  errnoFinal : Int
  /-- final contents of the local arrays stdinFds, stdoutFds, stderrFds. -/
  stdinFds : Int × Int
  stdoutFds : Int × Int
  stderrFds : Int × Int
  /-- stores through the out pointers, in program order. -/
  stores : List Store
  /-- fds passed to close() by the parent, in program order. -/
  closedFds : List Int
  /-- fds created by successful pipe() calls during this evaluation. -/
  createdFds : List Int
  /-- whether access() was invoked. -/
  accessCalled : Bool
  /-- whether fork() was invoked. -/
  forkCalled : Bool
deriving DecidableEq

/-- Result of one evaluation: either the parent-side return, or (when the
oracle says fork succeeded and we follow the child) the child branch. -/
inductive SpawnResult where
  | parentReturn (o : SpawnOutcome)
  | childBranch (stdinFds stdoutFds stderrFds : Int × Int)
      (outcome : ChildEnd) (st : ChildState)
deriving DecidableEq

/-- The code from label "done" (lines 166-191): capture priorErrno, close the
parent's copy of the child's end of any opened pipes; if the call failed,
also close everything else, store -1 through all four out pointers, restore
errno and return -1. -/
def doneStep (a : Args) (os : OsBehavior) (success : Bool) (errno : Int)
    (stdinFds stdoutFds stderrFds : Int × Int)
    (created : List Int) (stores : List Store)
    (accessCalled forkCalled : Bool) : SpawnOutcome :=
  let priorErrno := errno
  let p1 := CloseIfOpenParent os stdinFds.1 (errno, [])
  let p2 := CloseIfOpenParent os stdoutFds.2 p1
  let p3 := CloseIfOpenParent os stderrFds.2 p2
  if success then
    { ret := 0, errnoFinal := p3.1, stdinFds := stdinFds, stdoutFds := stdoutFds,
      stderrFds := stderrFds, stores := stores, closedFds := p3.2,
      createdFds := created, accessCalled := accessCalled, forkCalled := forkCalled }
  else
    let q1 := CloseIfOpenParent os stdinFds.2 p3
    let q2 := CloseIfOpenParent os stdoutFds.1 q1
    let q3 := CloseIfOpenParent os stderrFds.1 q2
    { ret := -1, errnoFinal := priorErrno, stdinFds := stdinFds,
      stdoutFds := stdoutFds, stderrFds := stderrFds,
      stores := stores ++
        [⟨OutPtr.stdinFd, a.stdinFdNull, -1⟩, ⟨OutPtr.stdoutFd, a.stdoutFdNull, -1⟩,
         ⟨OutPtr.stderrFd, a.stderrFdNull, -1⟩, ⟨OutPtr.childPid, a.childPidNull, -1⟩],
      closedFds := q3.2, createdFds := created,
      accessCalled := accessCalled, forkCalled := forkCalled }

/-- One clause "redirectX && pipe(xFds) != 0" of lines 99-100.  When the flag
is truthy the pipe outcome is consulted; on success the array receives two
fresh descriptors (read end first).  Returns the array contents, the next
fresh fd and the created fds, or the errno of the failed pipe call. -/
def pipeClause (redirect : Int) (outcome : PipeOutcome) (nextFd : Int) :
    Except Int ((Int × Int) × Int × List Int) :=
  if redirect ≠ 0 then
    match outcome with
    | PipeOutcome.ok => Except.ok ((nextFd, nextFd + 1), nextFd + 2, [nextFd, nextFd + 1])
    | PipeOutcome.fail e => Except.error e
  else Except.ok ((-1, -1), nextFd, [])

/-- Shallow embedding of ForkAndExecProcess (lines 49-192). -/
def ForkAndExecProcess (a : Args) (os : OsBehavior) : SpawnResult :=
  -- int success = true; processId = -1; all three arrays are {-1, -1}
  let errno0 := os.initialErrno
  let noFds : Int × Int := (-1, -1)
  -- Validate arguments: null checks (lines 70-77)
  if a.filenameNull || a.argvNull || a.envpNull || a.stdinFdNull || a.stdoutFdNull
      || a.stderrFdNull || a.childPidNull then
    SpawnResult.parentReturn (doneStep a os false EINVAL noFds noFds noFds [] [] false false)
  -- redirect flags must be 0 or 1 (lines 79-85): (x & ~1) != 0, and ~1 = -2
  else if Int.land a.redirectStdin (-2) ≠ 0 ∨ Int.land a.redirectStdout (-2) ≠ 0
      ∨ Int.land a.redirectStderr (-2) ≠ 0 then
    SpawnResult.parentReturn (doneStep a os false EINVAL noFds noFds noFds [] [] false false)
  -- access(filename, X_OK) != 0 (lines 92-96)
  else if ¬ os.accessOk then
    SpawnResult.parentReturn
      (doneStep a os false os.accessErrno noFds noFds noFds [] [] true false)
  else
    -- pipe allocation (lines 98-104), short-circuiting on the first failure
    match pipeClause a.redirectStdin os.pipeStdinOutcome os.firstFd with
    | Except.error e =>
        SpawnResult.parentReturn (doneStep a os false e noFds noFds noFds [] [] true false)
    | Except.ok (stdinFds, fd1, c1) =>
      match pipeClause a.redirectStdout os.pipeStdoutOutcome fd1 with
      | Except.error e =>
          SpawnResult.parentReturn
            (doneStep a os false e stdinFds noFds noFds c1 [] true false)
      | Except.ok (stdoutFds, fd2, c2) =>
        match pipeClause a.redirectStderr os.pipeStderrOutcome fd2 with
        | Except.error e =>
            SpawnResult.parentReturn
              (doneStep a os false e stdinFds stdoutFds noFds (c1 ++ c2) [] true false)
        | Except.ok (stderrFds, _, c3) =>
          let created := c1 ++ c2 ++ c3
          -- fork (lines 107-111)
          match os.forkOutcome with
          | ForkOutcome.fail e =>
              SpawnResult.parentReturn
                (doneStep a os false e stdinFds stdoutFds stderrFds created [] true true)
          | ForkOutcome.child =>
              let r := childRun a os stdinFds stdoutFds stderrFds errno0
              SpawnResult.childBranch stdinFds stdoutFds stderrFds r.1 r.2
          | ForkOutcome.parent pid =>
              -- record child pid and the parent's pipe ends (lines 161-164)
              let stores : List Store :=
                [⟨OutPtr.childPid, a.childPidNull, pid⟩,
                 ⟨OutPtr.stdinFd, a.stdinFdNull, stdinFds.2⟩,
                 ⟨OutPtr.stdoutFd, a.stdoutFdNull, stdoutFds.1⟩,
                 ⟨OutPtr.stderrFd, a.stderrFdNull, stderrFds.1⟩]
              SpawnResult.parentReturn
                (doneStep a os true errno0 stdinFds stdoutFds stderrFds created stores true true)

/-- Last value stored through a given out pointer. -/
def lastStore (l : List Store) (t : OutPtr) : Option Int :=
  ((l.filter fun s => s.target = t).map Store.value).getLast?

/-- Whether some store went through a null pointer (undefined behavior). -/
def hasNullStore (l : List Store) : Bool :=
  l.any fun s => s.targetNull

/-- A failure outcome that leaked nothing: returned -1, stored the sentinel
-1 through all four (non-null) out pointers, and closed every fd it
created. -/
def SpawnOutcome.cleanFailure (o : SpawnOutcome) : Prop :=
  o.ret = -1 ∧
  lastStore o.stores OutPtr.childPid = some (-1) ∧
  lastStore o.stores OutPtr.stdinFd = some (-1) ∧
  lastStore o.stores OutPtr.stdoutFd = some (-1) ∧
  lastStore o.stores OutPtr.stderrFd = some (-1) ∧
  hasNullStore o.stores = false ∧
  (∀ fd ∈ o.createdFds, fd ∈ o.closedFds)

/-- Parent outcome projection. -/
def SpawnResult.parentOutcome : SpawnResult → Option SpawnOutcome
  | SpawnResult.parentReturn o => some o
  | _ => none

/-- Child event-trace projection. -/
def SpawnResult.childEvents : SpawnResult → Option (List CEvent)
  | SpawnResult.childBranch _ _ _ _ st => some st.events
  | _ => none

/-- Child termination projection. -/
def SpawnResult.childTermination : SpawnResult → Option ChildEnd
  | SpawnResult.childBranch _ _ _ c _ => some c
  | _ => none

/-- Child closed-fds projection. -/
def SpawnResult.childClosed : SpawnResult → Option (List Int)
  | SpawnResult.childBranch _ _ _ _ st => some st.closed
  | _ => none

/-- All pointer arguments non-null: the validation at line 70 passes. -/
def Args.noNullArgs (a : Args) : Prop :=
  a.filenameNull = false ∧ a.argvNull = false ∧ a.envpNull = false ∧
  a.stdinFdNull = false ∧ a.stdoutFdNull = false ∧ a.stderrFdNull = false ∧
  a.childPidNull = false

/-- A strict boolean redirect flag. -/
def boolFlag (x : Int) : Prop := x = 0 ∨ x = 1

/-- The four out pointers are non-null. -/
def Args.outPtrsValid (a : Args) : Prop :=
  a.childPidNull = false ∧ a.stdinFdNull = false ∧ a.stdoutFdNull = false ∧
  a.stderrFdNull = false

/-- The close events CloseIfOpen contributes in the child for a given fd. -/
def closeEvts (fd : Int) : List CEvent :=
  if 0 ≤ fd then [CEvent.closeFd fd] else []

/-- The event trace of a child branch in which every step succeeded,
mirroring the order of lines 113-158: close the parent ends, dup2 each
requested redirection, close the superseded originals, chdir if requested,
setsid if requested, execve. -/
def canonicalChildEvents (a : Args) (stdinFds stdoutFds stderrFds : Int × Int) :
    List CEvent :=
  closeEvts stdinFds.2 ++ closeEvts stdoutFds.1 ++ closeEvts stderrFds.1
  ++ (if a.redirectStdin ≠ 0 then [CEvent.dup2Step stdinFds.1 0] else [])
  ++ (if a.redirectStdout ≠ 0 then [CEvent.dup2Step stdoutFds.2 1] else [])
  ++ (if a.redirectStderr ≠ 0 then [CEvent.dup2Step stderrFds.2 2] else [])
  ++ closeEvts stdinFds.1 ++ closeEvts stdoutFds.2 ++ closeEvts stderrFds.2
  ++ (if a.cwdNull then [] else [CEvent.chdirStep])
  ++ (if Int.land a.creationFlags CREATE_NEW_PROCESS_SESSION ≠ 0 then
        [CEvent.setsidStep] else [])
  ++ [CEvent.execveStep]

/-- Contents of the local array stdinFds after the allocation line: a fresh
pipe (read end first) when stdin redirection is requested, else {-1, -1}. -/
def sInOf (a : Args) (os : OsBehavior) : Int × Int :=
  if a.redirectStdin ≠ 0 then (os.firstFd, os.firstFd + 1) else (-1, -1)

/-- First fresh fd available to the stdout pipe call. -/
def stdoutBase (a : Args) (os : OsBehavior) : Int :=
  if a.redirectStdin ≠ 0 then os.firstFd + 2 else os.firstFd

/-- Contents of the local array stdoutFds after the allocation line. -/
def sOutOf (a : Args) (os : OsBehavior) : Int × Int :=
  if a.redirectStdout ≠ 0 then (stdoutBase a os, stdoutBase a os + 1) else (-1, -1)

/-- First fresh fd available to the stderr pipe call. -/
def stderrBase (a : Args) (os : OsBehavior) : Int :=
  if a.redirectStdout ≠ 0 then stdoutBase a os + 2 else stdoutBase a os

/-- Contents of the local array stderrFds after the allocation line. -/
def sErrOf (a : Args) (os : OsBehavior) : Int × Int :=
  if a.redirectStderr ≠ 0 then (stderrBase a os, stderrBase a os + 1) else (-1, -1)

/-- The fds created by the stdin pipe call. -/
def created1Of (a : Args) (os : OsBehavior) : List Int :=
  if a.redirectStdin ≠ 0 then [os.firstFd, os.firstFd + 1] else []

/-- The fds created by the stdout pipe call. -/
def created2Of (a : Args) (os : OsBehavior) : List Int :=
  if a.redirectStdout ≠ 0 then [stdoutBase a os, stdoutBase a os + 1] else []

/-- The fds created by the stderr pipe call. -/
def created3Of (a : Args) (os : OsBehavior) : List Int :=
  if a.redirectStderr ≠ 0 then [stderrBase a os, stderrBase a os + 1] else []

/-- All fds created when every requested pipe allocation succeeds. -/
def createdOf (a : Args) (os : OsBehavior) : List Int :=
  created1Of a os ++ created2Of a os ++ created3Of a os

/-- Arguments and oracle that pass validation and the access preflight. -/
def validStart (a : Args) (os : OsBehavior) : Prop :=
  a.noNullArgs ∧ boolFlag a.redirectStdin ∧ boolFlag a.redirectStdout ∧
  boolFlag a.redirectStderr ∧ os.accessOk = true

/-- Arguments and oracle under which evaluation reaches the child branch:
validation and preflight pass, every requested pipe allocates, and fork
succeeds with the oracle following the child. -/
def reachesChild (a : Args) (os : OsBehavior) : Prop :=
  validStart a os ∧
  (a.redirectStdin ≠ 0 → os.pipeStdinOutcome = PipeOutcome.ok) ∧
  (a.redirectStdout ≠ 0 → os.pipeStdoutOutcome = PipeOutcome.ok) ∧
  (a.redirectStderr ≠ 0 → os.pipeStderrOutcome = PipeOutcome.ok) ∧
  os.forkOutcome = ForkOutcome.child

/-- A request with all three redirections, a working directory, and the
new-session flag; all pointers non-null except as noted. -/
def argsFull : Args :=
  { filenameNull := false, argvNull := false, envpNull := false,
    cwdNull := false, redirectStdin := 1, redirectStdout := 1,
    redirectStderr := 1, creationFlags := 1, childPidNull := false,
    stdinFdNull := false, stdoutFdNull := false, stderrFdNull := false }

/-- The full request with a malformed stdin redirect flag. -/
def argsBadFlag : Args :=
  { argsFull with redirectStdin := 2 }

/-- The same request with a null childPid out pointer. -/
def argsNullPid : Args :=
  { filenameNull := false, argvNull := false, envpNull := false,
    cwdNull := true, redirectStdin := 0, redirectStdout := 0,
    redirectStderr := 0, creationFlags := 0, childPidNull := true,
    stdinFdNull := false, stdoutFdNull := false, stderrFdNull := false }

/-- An oracle under which everything succeeds, fork observed from the
parent. -/
def osParent : OsBehavior :=
  { initialErrno := 0, accessOk := true, accessErrno := 13, firstFd := 3,
    pipeStdinOutcome := PipeOutcome.ok, pipeStdoutOutcome := PipeOutcome.ok,
    pipeStderrOutcome := PipeOutcome.ok, forkOutcome := ForkOutcome.parent 42,
    closeSetsErrno := false, closeErrno := 0,
    dup2StdinCall := ⟨0, SysOutcome.ok 0⟩,
    dup2StdoutCall := ⟨0, SysOutcome.ok 1⟩,
    dup2StderrCall := ⟨0, SysOutcome.ok 2⟩,
    chdirCall := ⟨0, SysOutcome.ok 0⟩, setsidCall := ⟨0, SysOutcome.ok 7⟩,
    execveFailsWith := none }

/-- The same oracle observed from the child, with one EINTR interruption on
the stdin dup2 (retried transparently). -/
def osChild : OsBehavior :=
  { initialErrno := 0, accessOk := true, accessErrno := 13, firstFd := 3,
    pipeStdinOutcome := PipeOutcome.ok, pipeStdoutOutcome := PipeOutcome.ok,
    pipeStderrOutcome := PipeOutcome.ok, forkOutcome := ForkOutcome.child,
    closeSetsErrno := false, closeErrno := 0,
    dup2StdinCall := ⟨1, SysOutcome.ok 0⟩,
    dup2StdoutCall := ⟨0, SysOutcome.ok 1⟩,
    dup2StderrCall := ⟨0, SysOutcome.ok 2⟩,
    chdirCall := ⟨0, SysOutcome.ok 0⟩, setsidCall := ⟨0, SysOutcome.ok 7⟩,
    execveFailsWith := none }

/-- The child-side oracle with a failing stdout dup2 (EACCES = 13). -/
def osChildDupFail : OsBehavior :=
  { osChild with dup2StdoutCall := ⟨2, SysOutcome.fail 13⟩ }

/-- An oracle whose stdout pipe allocation fails with EMFILE = 24 after the
stdin pipe was allocated. -/
def osPipe2Fail : OsBehavior :=
  { osParent with pipeStdoutOutcome := PipeOutcome.fail 24 }

/-- An oracle whose fork fails with EAGAIN = 11; cleanup close() calls
clobber errno with 9 to exercise the errno-restore path. -/
def osForkFail : OsBehavior :=
  { osParent with
      forkOutcome := ForkOutcome.fail 11
      closeSetsErrno := true
      closeErrno := 9 }

/-- An oracle whose access preflight fails with EACCES = 13. -/
def osAccessFail : OsBehavior :=
  { osParent with accessOk := false }

/-! ### Bridge lemmas for the two's-complement bit tests in the source -/

lemma ldiff_one (m : Nat) : Nat.ldiff m 1 = 2 * (m / 2) := by
  show Nat.bitwise (fun a b => a && !b) m 1 = 2 * (m / 2)
  rw [Nat.bitwise]
  rcases Nat.eq_zero_or_pos m with h | h
  · subst h; simp
  · have hm : ¬ m = 0 := Nat.pos_iff_ne_zero.mp h
    simp only [hm, if_false, Nat.bitwise_zero_right]
    norm_num
    omega

lemma ldiff_one_of (m : Nat) : Nat.ldiff 1 m = if m % 2 = 1 then 0 else 1 := by
  show Nat.bitwise (fun a b => a && !b) 1 m = _
  rw [Nat.bitwise]
  rcases Nat.eq_zero_or_pos m with h | h
  · subst h; simp
  · have hm : ¬ m = 0 := Nat.pos_iff_ne_zero.mp h
    simp only [hm, if_false, Nat.bitwise_zero_left]
    norm_num
    by_cases hp : m % 2 = 1 <;> simp [hp]

/-- The validation test "(x & ~1) != 0" of line 79 holds exactly when x is
not a strict boolean: over two's complement, x & -2 = 0 iff x is 0 or 1. -/
lemma land_neg_two_eq_zero_iff (x : Int) : Int.land x (-2) = 0 ↔ x = 0 ∨ x = 1 := by
  cases x with
  | ofNat m =>
      show Int.ofNat (Nat.ldiff m 1) = 0 ↔ _
      rw [ldiff_one]
      simp only [Int.ofNat_eq_natCast]
      omega
  | negSucc m =>
      show Int.negSucc (Nat.lor m 1) = 0 ↔ _
      constructor
      · intro h; cases h
      · intro h; rcases h with h1 | h1 <;> cases h1

/-- The session test "creationFlags & CREATE_NEW_PROCESS_SESSION" of line 145
reads exactly bit 0: over two's complement, x & 1 = x mod 2. -/
lemma land_one_eq_emod (x : Int) : Int.land x 1 = x % 2 := by
  cases x with
  | ofNat m =>
      show Int.ofNat (Nat.land m 1) = _
      have h := Nat.and_one_is_mod m
      simp only [HAnd.hAnd, AndOp.and] at h
      rw [h]
      simp only [Int.ofNat_eq_natCast]
      omega
  | negSucc m =>
      show Int.ofNat (Nat.ldiff 1 m) = _
      rw [ldiff_one_of]
      rw [Int.negSucc_eq]
      rcases Nat.even_or_odd m with h | h
      · have h2 : m % 2 = 0 := Nat.even_iff.mp h
        simp only [h2]
        norm_num
        omega
      · have h2 : m % 2 = 1 := Nat.odd_iff.mp h
        simp only [h2]
        norm_num
        omega

/-- Concrete instances of the flag test, usable by simp where kernel
reduction of Nat.bitwise is unavailable. -/
lemma land_neg_two_zero : Int.land 0 (-2) = 0 :=
  (land_neg_two_eq_zero_iff 0).mpr (Or.inl rfl)

lemma land_neg_two_one : Int.land 1 (-2) = 0 :=
  (land_neg_two_eq_zero_iff 1).mpr (Or.inr rfl)

/-! ### Characterization of the retry loops -/

lemma retry_ok (n : Nat) (r e : Int) (h : 0 ≤ r) :
    retryWhileInterrupted n (SysOutcome.ok r) e =
      some (r, if n = 0 then e else EINTR) := by
  induction n generalizing e with
  | zero =>
      have : CheckInterrupted r e = false := by
        simp [CheckInterrupted]
        omega
      simp [retryWhileInterrupted, this]
  | succ n ih =>
      simp only [retryWhileInterrupted, ih EINTR]
      simp

lemma retry_fail (n : Nat) (e e0 : Int) (h : e ≠ EINTR) :
    retryWhileInterrupted n (SysOutcome.fail e) e0 = some (-1, e) := by
  induction n generalizing e0 with
  | zero =>
      have : CheckInterrupted (-1) e = false := by
        simp [CheckInterrupted]
        exact h
      simp [retryWhileInterrupted, this]
  | succ n ih => simpa [retryWhileInterrupted] using ih EINTR

/-! ### Characterization of the close helpers and the done section -/

lemma CloseIfOpenParent_snd (os : OsBehavior) (fd : Int) (p : Int × List Int) :
    (CloseIfOpenParent os fd p).2 = p.2 ++ if 0 ≤ fd then [fd] else [] := by
  unfold CloseIfOpenParent
  split <;> simp

lemma CloseIfOpenChild_events (os : OsBehavior) (fd : Int) (s : ChildState) :
    (CloseIfOpenChild os fd s).events = s.events ++ closeEvts fd := by
  unfold CloseIfOpenChild closeEvts
  split <;> simp

lemma CloseIfOpenChild_closed (os : OsBehavior) (fd : Int) (s : ChildState) :
    (CloseIfOpenChild os fd s).closed = s.closed ++ if 0 ≤ fd then [fd] else [] := by
  unfold CloseIfOpenChild
  split <;> simp

lemma filter_nonneg_cons (x : Int) (l : List Int) :
    (x :: l).filter (fun y => decide (0 ≤ y)) =
      (if 0 ≤ x then [x] else []) ++ l.filter (fun y => decide (0 ≤ y)) := by
  by_cases h : 0 ≤ x <;> simp [List.filter_cons, h]

lemma doneStep_closedFds (a : Args) (os : OsBehavior) (success : Bool) (errno : Int)
    (sIn sOut sErr : Int × Int) (created : List Int) (stores : List Store)
    (ac fc : Bool) :
    (doneStep a os success errno sIn sOut sErr created stores ac fc).closedFds =
      (if success then [sIn.1, sOut.2, sErr.2]
       else [sIn.1, sOut.2, sErr.2, sIn.2, sOut.1, sErr.1]).filter
        (fun x => decide (0 ≤ x)) := by
  unfold doneStep
  cases success <;>
    simp only [Bool.false_eq_true, if_true, if_false, filter_nonneg_cons,
      CloseIfOpenParent_snd, List.filter_nil, List.nil_append, List.append_nil,
      List.append_assoc]

lemma doneStep_ret (a : Args) (os : OsBehavior) (success : Bool) (errno : Int)
    (sIn sOut sErr : Int × Int) (created : List Int) (stores : List Store)
    (ac fc : Bool) :
    (doneStep a os success errno sIn sOut sErr created stores ac fc).ret =
      if success then 0 else -1 := by
  unfold doneStep
  cases success <;> simp

lemma doneStep_errnoFinal_fail (a : Args) (os : OsBehavior) (errno : Int)
    (sIn sOut sErr : Int × Int) (created : List Int) (stores : List Store)
    (ac fc : Bool) :
    (doneStep a os false errno sIn sOut sErr created stores ac fc).errnoFinal =
      errno := by
  unfold doneStep
  simp

lemma doneStep_stores (a : Args) (os : OsBehavior) (success : Bool) (errno : Int)
    (sIn sOut sErr : Int × Int) (created : List Int) (stores : List Store)
    (ac fc : Bool) :
    (doneStep a os success errno sIn sOut sErr created stores ac fc).stores =
      if success then stores else stores ++
        [⟨OutPtr.stdinFd, a.stdinFdNull, -1⟩, ⟨OutPtr.stdoutFd, a.stdoutFdNull, -1⟩,
         ⟨OutPtr.stderrFd, a.stderrFdNull, -1⟩, ⟨OutPtr.childPid, a.childPidNull, -1⟩] := by
  unfold doneStep
  cases success <;> simp

lemma doneStep_stdinFds (a : Args) (os : OsBehavior) (success : Bool) (errno : Int)
    (sIn sOut sErr : Int × Int) (created : List Int) (stores : List Store)
    (ac fc : Bool) :
    (doneStep a os success errno sIn sOut sErr created stores ac fc).stdinFds = sIn := by
  unfold doneStep
  cases success <;> simp

lemma doneStep_stdoutFds (a : Args) (os : OsBehavior) (success : Bool) (errno : Int)
    (sIn sOut sErr : Int × Int) (created : List Int) (stores : List Store)
    (ac fc : Bool) :
    (doneStep a os success errno sIn sOut sErr created stores ac fc).stdoutFds = sOut := by
  unfold doneStep
  cases success <;> simp

lemma doneStep_stderrFds (a : Args) (os : OsBehavior) (success : Bool) (errno : Int)
    (sIn sOut sErr : Int × Int) (created : List Int) (stores : List Store)
    (ac fc : Bool) :
    (doneStep a os success errno sIn sOut sErr created stores ac fc).stderrFds = sErr := by
  unfold doneStep
  cases success <;> simp

lemma doneStep_createdFds (a : Args) (os : OsBehavior) (success : Bool) (errno : Int)
    (sIn sOut sErr : Int × Int) (created : List Int) (stores : List Store)
    (ac fc : Bool) :
    (doneStep a os success errno sIn sOut sErr created stores ac fc).createdFds = created := by
  unfold doneStep
  cases success <;> simp

lemma doneStep_accessCalled (a : Args) (os : OsBehavior) (success : Bool) (errno : Int)
    (sIn sOut sErr : Int × Int) (created : List Int) (stores : List Store)
    (ac fc : Bool) :
    (doneStep a os success errno sIn sOut sErr created stores ac fc).accessCalled = ac := by
  unfold doneStep
  cases success <;> simp

lemma doneStep_forkCalled (a : Args) (os : OsBehavior) (success : Bool) (errno : Int)
    (sIn sOut sErr : Int × Int) (created : List Int) (stores : List Store)
    (ac fc : Bool) :
    (doneStep a os success errno sIn sOut sErr created stores ac fc).forkCalled = fc := by
  unfold doneStep
  cases success <;> simp

/-! ### Characterization of the child branch -/

lemma childDup2_skip (c : RetriedCall) (ofd nfd : Int) (s : ChildState) :
    childDup2 0 c ofd nfd s = Except.ok s := by
  unfold childDup2
  simp

lemma childDup2_ok_of (r : Int) (c : RetriedCall) (ofd nfd rv : Int) (s : ChildState)
    (hr : r ≠ 0) (hc : c.final = SysOutcome.ok rv) (hrv : 0 ≤ rv) :
    childDup2 r c ofd nfd s = Except.ok
      { s with errno := (if c.nEintr = 0 then s.errno else EINTR),
               events := s.events ++ [CEvent.dup2Step ofd nfd] } := by
  have hne : ¬ (rv = -1) := by omega
  unfold childDup2 Dup2WithInterruptedRetry
  rw [hc, retry_ok _ _ _ hrv]
  simp [hr, hne]

lemma childDup2_fail_of (r : Int) (c : RetriedCall) (ofd nfd e : Int) (s : ChildState)
    (hr : r ≠ 0) (hc : c.final = SysOutcome.fail e) (he : e ≠ EINTR) :
    childDup2 r c ofd nfd s = Except.error
      (ChildEnd.exited (exitStatus e),
       { s with errno := e, events := s.events ++ [CEvent.dup2Step ofd nfd] }) := by
  unfold childDup2 Dup2WithInterruptedRetry
  rw [hc, retry_fail _ _ _ he]
  simp [hr]

lemma childRetryStep_ok_of (c : RetriedCall) (evt : CEvent) (rv : Int) (s : ChildState)
    (hc : c.final = SysOutcome.ok rv) (hrv : 0 ≤ rv) :
    childRetryStep c evt s = Except.ok
      { s with errno := (if c.nEintr = 0 then s.errno else EINTR),
               events := s.events ++ [evt] } := by
  have hne : ¬ (rv = -1) := by omega
  unfold childRetryStep
  rw [hc, retry_ok _ _ _ hrv]
  simp [hne]

lemma childRetryStep_fail_of (c : RetriedCall) (evt : CEvent) (e : Int) (s : ChildState)
    (hc : c.final = SysOutcome.fail e) (he : e ≠ EINTR) :
    childRetryStep c evt s = Except.error
      (ChildEnd.exited (exitStatus e),
       { s with errno := e, events := s.events ++ [evt] }) := by
  unfold childRetryStep
  rw [hc, retry_fail _ _ _ he]
  simp

lemma childDup2_cases (r : Int) (c : RetriedCall) (ofd nfd : Int) (s : ChildState) :
    (∃ s1, childDup2 r c ofd nfd s = Except.ok s1 ∧ s1.closed = s.closed) ∨
    (∃ ce s1, childDup2 r c ofd nfd s = Except.error (ce, s1) ∧
      s1.closed = s.closed ∧ ce ≠ ChildEnd.execReplaced) := by
  unfold childDup2
  split
  · split
    · right
      exact ⟨_, _, rfl, rfl, by simp⟩
    · split
      · right
        exact ⟨_, _, rfl, rfl, by simp⟩
      · left
        exact ⟨_, rfl, rfl⟩
  · left
    exact ⟨_, rfl, rfl⟩

lemma childRetryStep_cases (c : RetriedCall) (evt : CEvent) (s : ChildState) :
    (∃ s1, childRetryStep c evt s = Except.ok s1 ∧ s1.closed = s.closed) ∨
    (∃ ce s1, childRetryStep c evt s = Except.error (ce, s1) ∧
      s1.closed = s.closed ∧ ce ≠ ChildEnd.execReplaced) := by
  unfold childRetryStep
  split
  · right
    exact ⟨_, _, rfl, rfl, by simp⟩
  · split
    · right
      exact ⟨_, _, rfl, rfl, by simp⟩
    · left
      exact ⟨_, rfl, rfl⟩

/-- The fds the child passes to close: the parent ends are always closed
first; the superseded originals are closed exactly when no dup2 clause
aborted the child. -/
lemma childRun_closed_cases (a : Args) (os : OsBehavior)
    (sIn sOut sErr : Int × Int) (errno0 : Int) :
    (childRun a os sIn sOut sErr errno0).2.closed =
      ([sIn.2, sOut.1, sErr.1].filter fun x => decide (0 ≤ x)) ∨
    (childRun a os sIn sOut sErr errno0).2.closed =
      ([sIn.2, sOut.1, sErr.1, sIn.1, sOut.2, sErr.2].filter fun x => decide (0 ≤ x)) := by
  unfold childRun
  set s0 : ChildState := { errno := errno0, events := [], closed := [] } with hs0
  have h3 : (CloseIfOpenChild os sErr.1
      (CloseIfOpenChild os sOut.1 (CloseIfOpenChild os sIn.2 s0))).closed =
      ([sIn.2, sOut.1, sErr.1].filter fun x => decide (0 ≤ x)) := by
    simp [CloseIfOpenChild_closed, hs0, filter_nonneg_cons, List.append_assoc]
  set s3 := CloseIfOpenChild os sErr.1
      (CloseIfOpenChild os sOut.1 (CloseIfOpenChild os sIn.2 s0)) with hs3
  rcases childDup2_cases a.redirectStdin os.dup2StdinCall sIn.1 0 s3 with
    ⟨sA, hA, hAc⟩ | ⟨ce, sA, hA, hAc, _⟩
  on_goal 2 => simp [hA, hAc, h3, Except.bind]
  rcases childDup2_cases a.redirectStdout os.dup2StdoutCall sOut.2 1 sA with
    ⟨sB, hB, hBc⟩ | ⟨ce, sB, hB, hBc, _⟩
  on_goal 2 => simp [hA, hB, hBc, hAc, h3, Except.bind]
  rcases childDup2_cases a.redirectStderr os.dup2StderrCall sErr.2 2 sB with
    ⟨sC, hC, hCc⟩ | ⟨ce, sC, hC, hCc, _⟩
  on_goal 2 => simp [hA, hB, hC, hCc, hBc, hAc, h3, Except.bind]
  simp only [hA, hB, hC, Except.bind]
  have h7 : (CloseIfOpenChild os sErr.2
      (CloseIfOpenChild os sOut.2 (CloseIfOpenChild os sIn.1 sC))).closed =
      ([sIn.2, sOut.1, sErr.1, sIn.1, sOut.2, sErr.2].filter fun x => decide (0 ≤ x)) := by
    simp [CloseIfOpenChild_closed, hCc, hBc, hAc, h3, filter_nonneg_cons,
      List.append_assoc]
  set s7 := CloseIfOpenChild os sErr.2
      (CloseIfOpenChild os sOut.2 (CloseIfOpenChild os sIn.1 sC)) with hs7
  have hchdir : (∃ s8, (if a.cwdNull then Except.ok s7
        else childRetryStep os.chdirCall CEvent.chdirStep s7) = Except.ok s8 ∧
        s8.closed = s7.closed) ∨
      (∃ ce s8, (if a.cwdNull then Except.ok s7
        else childRetryStep os.chdirCall CEvent.chdirStep s7) = Except.error (ce, s8) ∧
        s8.closed = s7.closed) := by
    by_cases h : a.cwdNull
    · exact Or.inl ⟨s7, by simp [h], rfl⟩
    · rcases childRetryStep_cases os.chdirCall CEvent.chdirStep s7 with
        ⟨s8, h8, h8c⟩ | ⟨ce, s8, h8, h8c, _⟩
      · exact Or.inl ⟨s8, by simp [h, h8], h8c⟩
      · exact Or.inr ⟨ce, s8, by simp [h, h8], h8c⟩
  rcases hchdir with ⟨s8, h8, h8c⟩ | ⟨ce, s8, h8, h8c⟩
  on_goal 2 => simp [h8, h8c, h7, Except.bind]
  simp only [h8]
  have hsid : (∃ s9, (if Int.land a.creationFlags CREATE_NEW_PROCESS_SESSION ≠ 0 then
        childRetryStep os.setsidCall CEvent.setsidStep s8
        else Except.ok s8) = Except.ok s9 ∧ s9.closed = s8.closed) ∨
      (∃ ce s9, (if Int.land a.creationFlags CREATE_NEW_PROCESS_SESSION ≠ 0 then
        childRetryStep os.setsidCall CEvent.setsidStep s8
        else Except.ok s8) = Except.error (ce, s9) ∧ s9.closed = s8.closed) := by
    by_cases h : Int.land a.creationFlags CREATE_NEW_PROCESS_SESSION ≠ 0
    · rcases childRetryStep_cases os.setsidCall CEvent.setsidStep s8 with
        ⟨s9, h9, h9c⟩ | ⟨ce, s9, h9, h9c, _⟩
      · exact Or.inl ⟨s9, by simp [h, h9], h9c⟩
      · exact Or.inr ⟨ce, s9, by simp [h, h9], h9c⟩
    · exact Or.inl ⟨s8, by simp [h], rfl⟩
  rcases hsid with ⟨s9, h9, h9c⟩ | ⟨ce, s9, h9, h9c⟩
  on_goal 2 => simp [h9, h9c, h8c, h7, Except.bind]
  simp only [h9]
  rcases hex : os.execveFailsWith with _ | e <;>
    simp [hex, h9c, h8c, h7]

lemma childDup2_okEvents (r : Int) (c : RetriedCall) (ofd nfd rv : Int)
    (s : ChildState) (hc : c.final = SysOutcome.ok rv) (hrv : 0 ≤ rv) :
    ∃ s1, childDup2 r c ofd nfd s = Except.ok s1 ∧
      s1.events = s.events ++ (if r ≠ 0 then [CEvent.dup2Step ofd nfd] else []) ∧
      s1.closed = s.closed := by
  by_cases h : r ≠ 0
  · exact ⟨_, childDup2_ok_of r c ofd nfd rv s h hc hrv, by simp [h], rfl⟩
  · push_neg at h
    subst h
    exact ⟨s, childDup2_skip c ofd nfd s, by simp, rfl⟩

/-- Under an oracle in which every child-side call eventually succeeds, the
child reaches execve and its trace is exactly the canonical one. -/
lemma childRun_success (a : Args) (os : OsBehavior)
    (sIn sOut sErr : Int × Int) (errno0 : Int)
    (rIn rOut rErr rc rs : Int)
    (hIn : os.dup2StdinCall.final = SysOutcome.ok rIn) (hIn2 : 0 ≤ rIn)
    (hOut : os.dup2StdoutCall.final = SysOutcome.ok rOut) (hOut2 : 0 ≤ rOut)
    (hErr : os.dup2StderrCall.final = SysOutcome.ok rErr) (hErr2 : 0 ≤ rErr)
    (hc : os.chdirCall.final = SysOutcome.ok rc) (hc2 : 0 ≤ rc)
    (hs : os.setsidCall.final = SysOutcome.ok rs) (hs2 : 0 ≤ rs)
    (hex : os.execveFailsWith = none) :
    (childRun a os sIn sOut sErr errno0).1 = ChildEnd.execReplaced ∧
    (childRun a os sIn sOut sErr errno0).2.events =
      canonicalChildEvents a sIn sOut sErr := by
  unfold childRun
  set s0 : ChildState := { errno := errno0, events := [], closed := [] } with hs0
  set s3 := CloseIfOpenChild os sErr.1
      (CloseIfOpenChild os sOut.1 (CloseIfOpenChild os sIn.2 s0)) with hs3
  have h3e : s3.events = closeEvts sIn.2 ++ closeEvts sOut.1 ++ closeEvts sErr.1 := by
    simp [hs3, CloseIfOpenChild_events, hs0, List.append_assoc]
  obtain ⟨sA, hA, hAe, _⟩ :=
    childDup2_okEvents a.redirectStdin os.dup2StdinCall sIn.1 0 rIn s3 hIn hIn2
  obtain ⟨sB, hB, hBe, _⟩ :=
    childDup2_okEvents a.redirectStdout os.dup2StdoutCall sOut.2 1 rOut sA hOut hOut2
  obtain ⟨sC, hC, hCe, _⟩ :=
    childDup2_okEvents a.redirectStderr os.dup2StderrCall sErr.2 2 rErr sB hErr hErr2
  simp only [hA, hB, hC, Except.bind]
  set s7 := CloseIfOpenChild os sErr.2
      (CloseIfOpenChild os sOut.2 (CloseIfOpenChild os sIn.1 sC)) with hs7
  have h7e : s7.events = sC.events ++ closeEvts sIn.1 ++ closeEvts sOut.2
      ++ closeEvts sErr.2 := by
    simp [hs7, CloseIfOpenChild_events, List.append_assoc]
  have hchdir : ∃ s8, (if a.cwdNull then Except.ok s7
      else childRetryStep os.chdirCall CEvent.chdirStep s7) = Except.ok s8 ∧
      s8.events = s7.events ++ (if a.cwdNull then [] else [CEvent.chdirStep]) := by
    by_cases h : a.cwdNull
    · exact ⟨s7, by simp [h], by simp [h]⟩
    · have hstep := childRetryStep_ok_of os.chdirCall CEvent.chdirStep rc s7 hc hc2
      exact ⟨_, by rw [if_neg h, hstep], by simp [h]⟩
  obtain ⟨s8, h8, h8e⟩ := hchdir
  simp only [h8]
  have hsid : ∃ s9, (if Int.land a.creationFlags CREATE_NEW_PROCESS_SESSION ≠ 0 then
      childRetryStep os.setsidCall CEvent.setsidStep s8 else Except.ok s8) = Except.ok s9 ∧
      s9.events = s8.events ++
        (if Int.land a.creationFlags CREATE_NEW_PROCESS_SESSION ≠ 0 then
          [CEvent.setsidStep] else []) := by
    by_cases h : Int.land a.creationFlags CREATE_NEW_PROCESS_SESSION ≠ 0
    · have hstep := childRetryStep_ok_of os.setsidCall CEvent.setsidStep rs s8 hs hs2
      exact ⟨_, by rw [if_pos h, hstep], by simp [h]⟩
    · exact ⟨s8, by simp [h], by simp [h]⟩
  obtain ⟨s9, h9, h9e⟩ := hsid
  simp only [h9]
  rw [hex]
  refine ⟨rfl, ?_⟩
  simp only [canonicalChildEvents, h9e, h8e, h7e, hCe, hBe, hAe, h3e,
    List.append_assoc]

/-! ### A generic no-double-close lemma -/

lemma nodup_filter_nonneg (l : List Int)
    (h : l.Pairwise fun x y => 0 ≤ x → 0 ≤ y → x ≠ y) :
    (l.filter fun x => decide (0 ≤ x)).Nodup := by
  have h2 := h.filter (fun x => decide (0 ≤ x))
  refine h2.imp_of_mem ?_
  intro a b ha hb hab
  have ha2 := List.of_mem_filter ha
  have hb2 := List.of_mem_filter hb
  exact hab (by simpa using ha2) (by simpa using hb2)

/-! ### Whole-path evaluation lemmas -/

lemma flags_pass (a : Args) (hIn : boolFlag a.redirectStdin)
    (hOut : boolFlag a.redirectStdout) (hErr : boolFlag a.redirectStderr) :
    ¬ (Int.land a.redirectStdin (-2) ≠ 0 ∨ Int.land a.redirectStdout (-2) ≠ 0
      ∨ Int.land a.redirectStderr (-2) ≠ 0) := by
  push_neg
  exact ⟨(land_neg_two_eq_zero_iff _).mpr hIn, (land_neg_two_eq_zero_iff _).mpr hOut,
    (land_neg_two_eq_zero_iff _).mpr hErr⟩

lemma spawnEval_nullArg (a : Args) (os : OsBehavior)
    (h : a.filenameNull = true ∨ a.argvNull = true ∨ a.envpNull = true ∨
      a.stdinFdNull = true ∨ a.stdoutFdNull = true ∨ a.stderrFdNull = true ∨
      a.childPidNull = true) :
    ForkAndExecProcess a os = SpawnResult.parentReturn
      (doneStep a os false EINVAL (-1, -1) (-1, -1) (-1, -1) [] [] false false) := by
  unfold ForkAndExecProcess
  rcases h with h | h | h | h | h | h | h <;> simp [h]

lemma spawnEval_badFlag (a : Args) (os : OsBehavior) (hnull : a.noNullArgs)
    (h : ¬ boolFlag a.redirectStdin ∨ ¬ boolFlag a.redirectStdout ∨
      ¬ boolFlag a.redirectStderr) :
    ForkAndExecProcess a os = SpawnResult.parentReturn
      (doneStep a os false EINVAL (-1, -1) (-1, -1) (-1, -1) [] [] false false) := by
  obtain ⟨n1, n2, n3, n4, n5, n6, n7⟩ := hnull
  have hl : Int.land a.redirectStdin (-2) ≠ 0 ∨ Int.land a.redirectStdout (-2) ≠ 0
      ∨ Int.land a.redirectStderr (-2) ≠ 0 := by
    rcases h with h | h | h
    · exact Or.inl fun hc => h ((land_neg_two_eq_zero_iff _).mp hc)
    · exact Or.inr (Or.inl fun hc => h ((land_neg_two_eq_zero_iff _).mp hc))
    · exact Or.inr (Or.inr fun hc => h ((land_neg_two_eq_zero_iff _).mp hc))
  unfold ForkAndExecProcess
  rw [if_neg (by simp [n1, n2, n3, n4, n5, n6, n7]), if_pos hl]

lemma spawnEval_accessFail (a : Args) (os : OsBehavior) (hnull : a.noNullArgs)
    (hIn : boolFlag a.redirectStdin) (hOut : boolFlag a.redirectStdout)
    (hErr : boolFlag a.redirectStderr) (hacc : os.accessOk = false) :
    ForkAndExecProcess a os = SpawnResult.parentReturn
      (doneStep a os false os.accessErrno (-1, -1) (-1, -1) (-1, -1) [] [] true false) := by
  obtain ⟨n1, n2, n3, n4, n5, n6, n7⟩ := hnull
  unfold ForkAndExecProcess
  rw [if_neg (by simp [n1, n2, n3, n4, n5, n6, n7]),
    if_neg (flags_pass a hIn hOut hErr), if_pos (by simp [hacc])]

lemma spawnEval_pipe1Fail (a : Args) (os : OsBehavior) (e : Int)
    (hv : validStart a os) (h1 : a.redirectStdin ≠ 0)
    (hp : os.pipeStdinOutcome = PipeOutcome.fail e) :
    ForkAndExecProcess a os = SpawnResult.parentReturn
      (doneStep a os false e (-1, -1) (-1, -1) (-1, -1) [] [] true false) := by
  obtain ⟨⟨n1, n2, n3, n4, n5, n6, n7⟩, hIn, hOut, hErr, hacc⟩ := hv
  unfold ForkAndExecProcess
  rw [if_neg (by simp [n1, n2, n3, n4, n5, n6, n7]),
    if_neg (flags_pass a hIn hOut hErr), if_neg (by simp [hacc])]
  simp [pipeClause, h1, hp]

lemma spawnEval_pipe2Fail (a : Args) (os : OsBehavior) (e : Int)
    (hv : validStart a os)
    (hp1 : a.redirectStdin ≠ 0 → os.pipeStdinOutcome = PipeOutcome.ok)
    (h2 : a.redirectStdout ≠ 0)
    (hp : os.pipeStdoutOutcome = PipeOutcome.fail e) :
    ForkAndExecProcess a os = SpawnResult.parentReturn
      (doneStep a os false e (sInOf a os) (-1, -1) (-1, -1) (created1Of a os) []
        true false) := by
  obtain ⟨⟨n1, n2, n3, n4, n5, n6, n7⟩, hIn, hOut, hErr, hacc⟩ := hv
  unfold ForkAndExecProcess
  rw [if_neg (by simp [n1, n2, n3, n4, n5, n6, n7]),
    if_neg (flags_pass a hIn hOut hErr), if_neg (by simp [hacc])]
  by_cases h1 : a.redirectStdin = 0 <;>
    simp [pipeClause, sInOf, created1Of, h1, h2, hp, hp1]

lemma spawnEval_pipe3Fail (a : Args) (os : OsBehavior) (e : Int)
    (hv : validStart a os)
    (hp1 : a.redirectStdin ≠ 0 → os.pipeStdinOutcome = PipeOutcome.ok)
    (hp2 : a.redirectStdout ≠ 0 → os.pipeStdoutOutcome = PipeOutcome.ok)
    (h3 : a.redirectStderr ≠ 0)
    (hp : os.pipeStderrOutcome = PipeOutcome.fail e) :
    ForkAndExecProcess a os = SpawnResult.parentReturn
      (doneStep a os false e (sInOf a os) (sOutOf a os) (-1, -1)
        (created1Of a os ++ created2Of a os) [] true false) := by
  obtain ⟨⟨n1, n2, n3, n4, n5, n6, n7⟩, hIn, hOut, hErr, hacc⟩ := hv
  unfold ForkAndExecProcess
  rw [if_neg (by simp [n1, n2, n3, n4, n5, n6, n7]),
    if_neg (flags_pass a hIn hOut hErr), if_neg (by simp [hacc])]
  by_cases h1 : a.redirectStdin = 0 <;> by_cases h2 : a.redirectStdout = 0 <;>
    simp [pipeClause, sInOf, sOutOf, stdoutBase, created1Of, created2Of,
      h1, h2, h3, hp, hp1, hp2]

lemma spawnEval_forkFail (a : Args) (os : OsBehavior) (e : Int)
    (hv : validStart a os)
    (hp1 : a.redirectStdin ≠ 0 → os.pipeStdinOutcome = PipeOutcome.ok)
    (hp2 : a.redirectStdout ≠ 0 → os.pipeStdoutOutcome = PipeOutcome.ok)
    (hp3 : a.redirectStderr ≠ 0 → os.pipeStderrOutcome = PipeOutcome.ok)
    (hf : os.forkOutcome = ForkOutcome.fail e) :
    ForkAndExecProcess a os = SpawnResult.parentReturn
      (doneStep a os false e (sInOf a os) (sOutOf a os) (sErrOf a os)
        (createdOf a os) [] true true) := by
  obtain ⟨⟨n1, n2, n3, n4, n5, n6, n7⟩, hIn, hOut, hErr, hacc⟩ := hv
  unfold ForkAndExecProcess
  rw [if_neg (by simp [n1, n2, n3, n4, n5, n6, n7]),
    if_neg (flags_pass a hIn hOut hErr), if_neg (by simp [hacc])]
  by_cases h1 : a.redirectStdin = 0 <;> by_cases h2 : a.redirectStdout = 0 <;>
    by_cases h3 : a.redirectStderr = 0 <;>
    simp [pipeClause, sInOf, sOutOf, sErrOf, stdoutBase, stderrBase,
      created1Of, created2Of, created3Of, createdOf, h1, h2, h3, hp1, hp2, hp3, hf]

lemma spawnEval_forkParent (a : Args) (os : OsBehavior) (pid : Int)
    (hv : validStart a os)
    (hp1 : a.redirectStdin ≠ 0 → os.pipeStdinOutcome = PipeOutcome.ok)
    (hp2 : a.redirectStdout ≠ 0 → os.pipeStdoutOutcome = PipeOutcome.ok)
    (hp3 : a.redirectStderr ≠ 0 → os.pipeStderrOutcome = PipeOutcome.ok)
    (hf : os.forkOutcome = ForkOutcome.parent pid) :
    ForkAndExecProcess a os = SpawnResult.parentReturn
      (doneStep a os true os.initialErrno (sInOf a os) (sOutOf a os) (sErrOf a os)
        (createdOf a os)
        [⟨OutPtr.childPid, a.childPidNull, pid⟩,
         ⟨OutPtr.stdinFd, a.stdinFdNull, (sInOf a os).2⟩,
         ⟨OutPtr.stdoutFd, a.stdoutFdNull, (sOutOf a os).1⟩,
         ⟨OutPtr.stderrFd, a.stderrFdNull, (sErrOf a os).1⟩] true true) := by
  obtain ⟨⟨n1, n2, n3, n4, n5, n6, n7⟩, hIn, hOut, hErr, hacc⟩ := hv
  unfold ForkAndExecProcess
  rw [if_neg (by simp [n1, n2, n3, n4, n5, n6, n7]),
    if_neg (flags_pass a hIn hOut hErr), if_neg (by simp [hacc])]
  by_cases h1 : a.redirectStdin = 0 <;> by_cases h2 : a.redirectStdout = 0 <;>
    by_cases h3 : a.redirectStderr = 0 <;>
    simp [pipeClause, sInOf, sOutOf, sErrOf, stdoutBase, stderrBase,
      created1Of, created2Of, created3Of, createdOf, h1, h2, h3, hp1, hp2, hp3, hf]

lemma spawnEval_forkChild (a : Args) (os : OsBehavior)
    (hv : validStart a os)
    (hp1 : a.redirectStdin ≠ 0 → os.pipeStdinOutcome = PipeOutcome.ok)
    (hp2 : a.redirectStdout ≠ 0 → os.pipeStdoutOutcome = PipeOutcome.ok)
    (hp3 : a.redirectStderr ≠ 0 → os.pipeStderrOutcome = PipeOutcome.ok)
    (hf : os.forkOutcome = ForkOutcome.child) :
    ForkAndExecProcess a os = SpawnResult.childBranch
      (sInOf a os) (sOutOf a os) (sErrOf a os)
      (childRun a os (sInOf a os) (sOutOf a os) (sErrOf a os) os.initialErrno).1
      (childRun a os (sInOf a os) (sOutOf a os) (sErrOf a os) os.initialErrno).2 := by
  obtain ⟨⟨n1, n2, n3, n4, n5, n6, n7⟩, hIn, hOut, hErr, hacc⟩ := hv
  unfold ForkAndExecProcess
  rw [if_neg (by simp [n1, n2, n3, n4, n5, n6, n7]),
    if_neg (flags_pass a hIn hOut hErr), if_neg (by simp [hacc])]
  by_cases h1 : a.redirectStdin = 0 <;> by_cases h2 : a.redirectStdout = 0 <;>
    by_cases h3 : a.redirectStderr = 0 <;>
    simp [pipeClause, sInOf, sOutOf, sErrOf, stdoutBase, stderrBase,
      created1Of, created2Of, created3Of, createdOf, h1, h2, h3, hp1, hp2, hp3, hf]

lemma lastStore_fail_block (l : List Store) (v1 v2 v3 v4 : Bool) (t : OutPtr) :
    lastStore (l ++ [⟨OutPtr.stdinFd, v1, -1⟩, ⟨OutPtr.stdoutFd, v2, -1⟩,
      ⟨OutPtr.stderrFd, v3, -1⟩, ⟨OutPtr.childPid, v4, -1⟩]) t = some (-1) := by
  cases t <;>
    simp [lastStore, List.filter_append, List.map_append, List.getLast?_concat,
      List.filter]

lemma lastStore_fail_only (v1 v2 v3 v4 : Bool) (t : OutPtr) :
    lastStore [⟨OutPtr.stdinFd, v1, -1⟩, ⟨OutPtr.stdoutFd, v2, -1⟩,
      ⟨OutPtr.stderrFd, v3, -1⟩, ⟨OutPtr.childPid, v4, -1⟩] t = some (-1) := by
  cases t <;> simp [lastStore, List.filter]

/-! ### The claims -/

/-- C4: a call whose executable path, argument vector or environment mapping
is absent, or whose redirect flags are not strict booleans, fails with EINVAL
before any OS resource is touched: access is not called, no pipe fd is
created, fork is not called, and nothing is closed. -/
theorem c4_invalid_args_reject (a : Args) (os : OsBehavior) :
    ((a.filenameNull = true ∨ a.argvNull = true ∨ a.envpNull = true) →
      ∃ o, ForkAndExecProcess a os = SpawnResult.parentReturn o ∧
        o.ret = -1 ∧ o.errnoFinal = EINVAL ∧ o.createdFds = [] ∧
        o.accessCalled = false ∧ o.forkCalled = false ∧ o.closedFds = []) ∧
    (a.noNullArgs →
      (¬ boolFlag a.redirectStdin ∨ ¬ boolFlag a.redirectStdout ∨
        ¬ boolFlag a.redirectStderr) →
      ∃ o, ForkAndExecProcess a os = SpawnResult.parentReturn o ∧
        o.ret = -1 ∧ o.errnoFinal = EINVAL ∧ o.createdFds = [] ∧
        o.accessCalled = false ∧ o.forkCalled = false ∧ o.closedFds = []) := by
  constructor
  · intro h
    refine ⟨_, spawnEval_nullArg a os (by tauto), ?_, ?_, ?_, ?_, ?_, ?_⟩
    · simp [doneStep_ret]
    · simp [doneStep_errnoFinal_fail]
    · simp [doneStep_createdFds]
    · simp [doneStep_accessCalled]
    · simp [doneStep_forkCalled]
    · simp [doneStep_closedFds]
  · intro hnull h
    refine ⟨_, spawnEval_badFlag a os hnull h, ?_, ?_, ?_, ?_, ?_, ?_⟩
    · simp [doneStep_ret]
    · simp [doneStep_errnoFinal_fail]
    · simp [doneStep_createdFds]
    · simp [doneStep_accessCalled]
    · simp [doneStep_forkCalled]
    · simp [doneStep_closedFds]

/-- C5: with valid arguments the executable-access preflight runs before fork
is attempted; if it fails the call fails with the filesystem error from
access, with no pipe created and no fork; moreover on every path where fork
was reached, access had been called and had succeeded. -/
theorem c5_preflight_before_fork (a : Args) (os : OsBehavior) :
    (a.noNullArgs → boolFlag a.redirectStdin → boolFlag a.redirectStdout →
      boolFlag a.redirectStderr → os.accessOk = false →
      ∃ o, ForkAndExecProcess a os = SpawnResult.parentReturn o ∧
        o.ret = -1 ∧ o.errnoFinal = os.accessErrno ∧ o.accessCalled = true ∧
        o.forkCalled = false ∧ o.createdFds = [] ∧ o.closedFds = []) ∧
    (∀ o, ForkAndExecProcess a os = SpawnResult.parentReturn o →
      o.forkCalled = true → o.accessCalled = true ∧ os.accessOk = true) ∧
    (∀ fdsIn fdsOut fdsErr c st,
      ForkAndExecProcess a os = SpawnResult.childBranch fdsIn fdsOut fdsErr c st →
      os.accessOk = true) := by
  refine ⟨?_, ?_, ?_⟩
  · intro hnull hIn hOut hErr hacc
    refine ⟨_, spawnEval_accessFail a os hnull hIn hOut hErr hacc, ?_, ?_, ?_, ?_, ?_, ?_⟩
    · simp [doneStep_ret]
    · simp [doneStep_errnoFinal_fail]
    · simp [doneStep_accessCalled]
    · simp [doneStep_forkCalled]
    · simp [doneStep_createdFds]
    · simp [doneStep_closedFds]
  · intro o h hfc
    unfold ForkAndExecProcess at h
    split at h
    · injection h with h
      rw [← h] at hfc
      simp [doneStep_forkCalled] at hfc
    · split at h
      · injection h with h
        rw [← h] at hfc
        simp [doneStep_forkCalled] at hfc
      · split at h
        · injection h with h
          rw [← h] at hfc
          simp [doneStep_forkCalled] at hfc
        · rename_i hacc
          split at h
          · injection h with h
            rw [← h] at hfc
            simp [doneStep_forkCalled] at hfc
          · split at h
            · injection h with h
              rw [← h] at hfc
              simp [doneStep_forkCalled] at hfc
            · split at h
              · injection h with h
                rw [← h] at hfc
                simp [doneStep_forkCalled] at hfc
              · split at h
                · injection h with h
                  rw [← h]
                  simp [doneStep_accessCalled, by simpa using hacc]
                · exact absurd h (by simp)
                · injection h with h
                  rw [← h]
                  simp [doneStep_accessCalled, by simpa using hacc]
  · intro fdsIn fdsOut fdsErr c st h
    unfold ForkAndExecProcess at h
    split at h
    · exact absurd h (by simp)
    · split at h
      · exact absurd h (by simp)
      · split at h
        · exact absurd h (by simp)
        · rename_i hacc
          split at h
          · exact absurd h (by simp)
          · split at h
            · exact absurd h (by simp)
            · split at h
              · exact absurd h (by simp)
              · split at h
                · exact absurd h (by simp)
                · simpa using hacc
                · exact absurd h (by simp)

/-- C6: whenever the call fails synchronously, the errno surfaced at return
is exactly the errno of the originating failed operation — EINVAL for the
two validation failures, the access errno for the preflight failure, the
errno of the first failing pipe call, or the fork errno — and this holds for
every oracle, in particular whatever errno values the ignored cleanup
close() calls produce (they are captured away by priorErrno and restored). -/
theorem c6_errno_preserved (a : Args) (os : OsBehavior) :
    ((a.filenameNull = true ∨ a.argvNull = true ∨ a.envpNull = true ∨
        a.stdinFdNull = true ∨ a.stdoutFdNull = true ∨ a.stderrFdNull = true ∨
        a.childPidNull = true) →
      ∃ o, ForkAndExecProcess a os = SpawnResult.parentReturn o ∧
        o.ret = -1 ∧ o.errnoFinal = EINVAL) ∧
    (a.noNullArgs →
      (¬ boolFlag a.redirectStdin ∨ ¬ boolFlag a.redirectStdout ∨
        ¬ boolFlag a.redirectStderr) →
      ∃ o, ForkAndExecProcess a os = SpawnResult.parentReturn o ∧
        o.ret = -1 ∧ o.errnoFinal = EINVAL) ∧
    (a.noNullArgs → boolFlag a.redirectStdin → boolFlag a.redirectStdout →
      boolFlag a.redirectStderr → os.accessOk = false →
      ∃ o, ForkAndExecProcess a os = SpawnResult.parentReturn o ∧
        o.ret = -1 ∧ o.errnoFinal = os.accessErrno) ∧
    (∀ e, validStart a os → a.redirectStdin ≠ 0 →
      os.pipeStdinOutcome = PipeOutcome.fail e →
      ∃ o, ForkAndExecProcess a os = SpawnResult.parentReturn o ∧
        o.ret = -1 ∧ o.errnoFinal = e) ∧
    (∀ e, validStart a os →
      (a.redirectStdin ≠ 0 → os.pipeStdinOutcome = PipeOutcome.ok) →
      a.redirectStdout ≠ 0 → os.pipeStdoutOutcome = PipeOutcome.fail e →
      ∃ o, ForkAndExecProcess a os = SpawnResult.parentReturn o ∧
        o.ret = -1 ∧ o.errnoFinal = e) ∧
    (∀ e, validStart a os →
      (a.redirectStdin ≠ 0 → os.pipeStdinOutcome = PipeOutcome.ok) →
      (a.redirectStdout ≠ 0 → os.pipeStdoutOutcome = PipeOutcome.ok) →
      a.redirectStderr ≠ 0 → os.pipeStderrOutcome = PipeOutcome.fail e →
      ∃ o, ForkAndExecProcess a os = SpawnResult.parentReturn o ∧
        o.ret = -1 ∧ o.errnoFinal = e) ∧
    (∀ e, validStart a os →
      (a.redirectStdin ≠ 0 → os.pipeStdinOutcome = PipeOutcome.ok) →
      (a.redirectStdout ≠ 0 → os.pipeStdoutOutcome = PipeOutcome.ok) →
      (a.redirectStderr ≠ 0 → os.pipeStderrOutcome = PipeOutcome.ok) →
      os.forkOutcome = ForkOutcome.fail e →
      ∃ o, ForkAndExecProcess a os = SpawnResult.parentReturn o ∧
        o.ret = -1 ∧ o.errnoFinal = e) := by
  refine ⟨?_, ?_, ?_, ?_, ?_, ?_, ?_⟩
  · intro h
    exact ⟨_, spawnEval_nullArg a os h,
      by simp [doneStep_ret], by simp [doneStep_errnoFinal_fail]⟩
  · intro hnull h
    exact ⟨_, spawnEval_badFlag a os hnull h,
      by simp [doneStep_ret], by simp [doneStep_errnoFinal_fail]⟩
  · intro hnull hIn hOut hErr hacc
    exact ⟨_, spawnEval_accessFail a os hnull hIn hOut hErr hacc,
      by simp [doneStep_ret], by simp [doneStep_errnoFinal_fail]⟩
  · intro e hv h1 hp
    exact ⟨_, spawnEval_pipe1Fail a os e hv h1 hp,
      by simp [doneStep_ret], by simp [doneStep_errnoFinal_fail]⟩
  · intro e hv hp1 h2 hp
    exact ⟨_, spawnEval_pipe2Fail a os e hv hp1 h2 hp,
      by simp [doneStep_ret], by simp [doneStep_errnoFinal_fail]⟩
  · intro e hv hp1 hp2 h3 hp
    exact ⟨_, spawnEval_pipe3Fail a os e hv hp1 hp2 h3 hp,
      by simp [doneStep_ret], by simp [doneStep_errnoFinal_fail]⟩
  · intro e hv hp1 hp2 hp3 hf
    exact ⟨_, spawnEval_forkFail a os e hv hp1 hp2 hp3 hf,
      by simp [doneStep_ret], by simp [doneStep_errnoFinal_fail]⟩

lemma doneStep_cleanStores (a : Args) (os : OsBehavior) (errno : Int)
    (sIn sOut sErr : Int × Int) (created : List Int) (ac fc : Bool)
    (houts : a.outPtrsValid) :
    (∀ t, lastStore
      (doneStep a os false errno sIn sOut sErr created [] ac fc).stores t =
        some (-1)) ∧
    hasNullStore
      (doneStep a os false errno sIn sOut sErr created [] ac fc).stores = false := by
  obtain ⟨o1, o2, o3, o4⟩ := houts
  constructor
  · intro t
    rw [doneStep_stores]
    simp [lastStore_fail_only]
  · rw [doneStep_stores]
    simp [hasNullStore, o1, o2, o3, o4]

/-- C2: every synchronously-failing call (invalid argument, preflight access
failure, pipe-allocation failure, fork failure) returns -1, closes every fd
it created, and stores the sentinel -1 through all four out parameters. -/
theorem c2_failure_cleanup (a : Args) (os : OsBehavior) :
    ((a.filenameNull = true ∨ a.argvNull = true ∨ a.envpNull = true) →
      a.outPtrsValid →
      ∃ o, ForkAndExecProcess a os = SpawnResult.parentReturn o ∧
        o.cleanFailure) ∧
    (a.noNullArgs →
      (¬ boolFlag a.redirectStdin ∨ ¬ boolFlag a.redirectStdout ∨
        ¬ boolFlag a.redirectStderr) →
      ∃ o, ForkAndExecProcess a os = SpawnResult.parentReturn o ∧
        o.cleanFailure) ∧
    (a.noNullArgs → boolFlag a.redirectStdin → boolFlag a.redirectStdout →
      boolFlag a.redirectStderr → os.accessOk = false →
      ∃ o, ForkAndExecProcess a os = SpawnResult.parentReturn o ∧
        o.cleanFailure) ∧
    (∀ e, validStart a os → a.redirectStdin ≠ 0 →
      os.pipeStdinOutcome = PipeOutcome.fail e →
      ∃ o, ForkAndExecProcess a os = SpawnResult.parentReturn o ∧
        o.cleanFailure) ∧
    (∀ e, 0 ≤ os.firstFd → validStart a os →
      (a.redirectStdin ≠ 0 → os.pipeStdinOutcome = PipeOutcome.ok) →
      a.redirectStdout ≠ 0 → os.pipeStdoutOutcome = PipeOutcome.fail e →
      ∃ o, ForkAndExecProcess a os = SpawnResult.parentReturn o ∧
        o.cleanFailure) ∧
    (∀ e, 0 ≤ os.firstFd → validStart a os →
      (a.redirectStdin ≠ 0 → os.pipeStdinOutcome = PipeOutcome.ok) →
      (a.redirectStdout ≠ 0 → os.pipeStdoutOutcome = PipeOutcome.ok) →
      a.redirectStderr ≠ 0 → os.pipeStderrOutcome = PipeOutcome.fail e →
      ∃ o, ForkAndExecProcess a os = SpawnResult.parentReturn o ∧
        o.cleanFailure) ∧
    (∀ e, 0 ≤ os.firstFd → validStart a os →
      (a.redirectStdin ≠ 0 → os.pipeStdinOutcome = PipeOutcome.ok) →
      (a.redirectStdout ≠ 0 → os.pipeStdoutOutcome = PipeOutcome.ok) →
      (a.redirectStderr ≠ 0 → os.pipeStderrOutcome = PipeOutcome.ok) →
      os.forkOutcome = ForkOutcome.fail e →
      ∃ o, ForkAndExecProcess a os = SpawnResult.parentReturn o ∧
        o.cleanFailure) := by
  refine ⟨?_, ?_, ?_, ?_, ?_, ?_, ?_⟩
  · intro h houts
    obtain ⟨hls, hns⟩ := doneStep_cleanStores a os EINVAL (-1, -1) (-1, -1) (-1, -1)
      [] false false houts
    refine ⟨_, spawnEval_nullArg a os (by tauto),
      by simp [doneStep_ret], hls _, hls _, hls _, hls _, hns, ?_⟩
    rw [doneStep_createdFds]
    intro fd hmem
    simp at hmem
  · intro hnull h
    have houts : a.outPtrsValid := by
      obtain ⟨n1, n2, n3, n4, n5, n6, n7⟩ := hnull
      exact ⟨n7, n4, n5, n6⟩
    obtain ⟨hls, hns⟩ := doneStep_cleanStores a os EINVAL (-1, -1) (-1, -1) (-1, -1)
      [] false false houts
    refine ⟨_, spawnEval_badFlag a os hnull h,
      by simp [doneStep_ret], hls _, hls _, hls _, hls _, hns, ?_⟩
    rw [doneStep_createdFds]
    intro fd hmem
    simp at hmem
  · intro hnull hIn hOut hErr hacc
    have houts : a.outPtrsValid := by
      obtain ⟨n1, n2, n3, n4, n5, n6, n7⟩ := hnull
      exact ⟨n7, n4, n5, n6⟩
    obtain ⟨hls, hns⟩ := doneStep_cleanStores a os os.accessErrno (-1, -1) (-1, -1)
      (-1, -1) [] true false houts
    refine ⟨_, spawnEval_accessFail a os hnull hIn hOut hErr hacc,
      by simp [doneStep_ret], hls _, hls _, hls _, hls _, hns, ?_⟩
    rw [doneStep_createdFds]
    intro fd hmem
    simp at hmem
  · intro e hv h1 hp
    have houts : a.outPtrsValid := by
      obtain ⟨⟨n1, n2, n3, n4, n5, n6, n7⟩, _, _, _, _⟩ := hv
      exact ⟨n7, n4, n5, n6⟩
    obtain ⟨hls, hns⟩ := doneStep_cleanStores a os e (-1, -1) (-1, -1) (-1, -1)
      [] true false houts
    refine ⟨_, spawnEval_pipe1Fail a os e hv h1 hp,
      by simp [doneStep_ret], hls _, hls _, hls _, hls _, hns, ?_⟩
    rw [doneStep_createdFds]
    intro fd hmem
    simp at hmem
  · intro e hfd hv hp1 h2 hp
    have houts : a.outPtrsValid := by
      obtain ⟨⟨n1, n2, n3, n4, n5, n6, n7⟩, _, _, _, _⟩ := hv
      exact ⟨n7, n4, n5, n6⟩
    obtain ⟨hls, hns⟩ := doneStep_cleanStores a os e (sInOf a os) (-1, -1) (-1, -1)
      (created1Of a os) true false houts
    refine ⟨_, spawnEval_pipe2Fail a os e hv hp1 h2 hp,
      by simp [doneStep_ret], hls _, hls _, hls _, hls _, hns, ?_⟩
    rw [doneStep_createdFds, doneStep_closedFds]
    intro fd hmem
    have e1 : 0 ≤ os.firstFd + 1 := by omega
    by_cases h1 : a.redirectStdin = 0
    · simp [created1Of, h1] at hmem
    · simp [created1Of, h1] at hmem
      simp [sInOf, h1, filter_nonneg_cons, hfd, e1]
      omega
  · intro e hfd hv hp1 hp2 h3 hp
    have houts : a.outPtrsValid := by
      obtain ⟨⟨n1, n2, n3, n4, n5, n6, n7⟩, _, _, _, _⟩ := hv
      exact ⟨n7, n4, n5, n6⟩
    obtain ⟨hls, hns⟩ := doneStep_cleanStores a os e (sInOf a os) (sOutOf a os)
      (-1, -1) (created1Of a os ++ created2Of a os) true false houts
    refine ⟨_, spawnEval_pipe3Fail a os e hv hp1 hp2 h3 hp,
      by simp [doneStep_ret], hls _, hls _, hls _, hls _, hns, ?_⟩
    rw [doneStep_createdFds, doneStep_closedFds]
    intro fd hmem
    have e1 : 0 ≤ os.firstFd + 1 := by omega
    have e2 : 0 ≤ os.firstFd + 2 := by omega
    have e3 : 0 ≤ os.firstFd + 3 := by omega
    by_cases h1 : a.redirectStdin = 0 <;> by_cases h2 : a.redirectStdout = 0 <;>
      simp [created1Of, created2Of, stdoutBase, h1, h2] at hmem <;>
      simp [sInOf, sOutOf, stdoutBase, h1, h2, filter_nonneg_cons, hfd, e1, e2, e3] <;>
      omega
  · intro e hfd hv hp1 hp2 hp3 hf
    have houts : a.outPtrsValid := by
      obtain ⟨⟨n1, n2, n3, n4, n5, n6, n7⟩, _, _, _, _⟩ := hv
      exact ⟨n7, n4, n5, n6⟩
    obtain ⟨hls, hns⟩ := doneStep_cleanStores a os e (sInOf a os) (sOutOf a os)
      (sErrOf a os) (createdOf a os) true true houts
    refine ⟨_, spawnEval_forkFail a os e hv hp1 hp2 hp3 hf,
      by simp [doneStep_ret], hls _, hls _, hls _, hls _, hns, ?_⟩
    rw [doneStep_createdFds, doneStep_closedFds]
    intro fd hmem
    have e1 : 0 ≤ os.firstFd + 1 := by omega
    have e2 : 0 ≤ os.firstFd + 2 := by omega
    have e3 : 0 ≤ os.firstFd + 3 := by omega
    have e4 : 0 ≤ os.firstFd + 4 := by omega
    have e5 : 0 ≤ os.firstFd + 5 := by omega
    by_cases h1 : a.redirectStdin = 0 <;> by_cases h2 : a.redirectStdout = 0 <;>
      by_cases h3 : a.redirectStderr = 0 <;>
      simp [createdOf, created1Of, created2Of, created3Of, stdoutBase, stderrBase,
        h1, h2, h3] at hmem <;>
      simp [sInOf, sOutOf, sErrOf, stdoutBase, stderrBase, h1, h2, h3,
        filter_nonneg_cons, hfd, e1, e2, e3, e4, e5] <;>
      omega

/-- C3: when a pipe allocation fails after earlier pipes were allocated, the
whole operation aborts, every pipe end allocated so far — including the ends
of pipes for streams processed before the failing one — is closed, and the
allocation errno is surfaced; when the first allocation fails nothing was
created and nothing needs closing. -/
theorem c3_partial_pipe_cleanup (a : Args) (os : OsBehavior) :
    (∀ e, validStart a os → a.redirectStdin ≠ 0 →
      os.pipeStdinOutcome = PipeOutcome.fail e →
      ∃ o, ForkAndExecProcess a os = SpawnResult.parentReturn o ∧
        o.ret = -1 ∧ o.errnoFinal = e ∧ o.createdFds = [] ∧ o.closedFds = []) ∧
    (∀ e, 0 ≤ os.firstFd → validStart a os →
      a.redirectStdin ≠ 0 → os.pipeStdinOutcome = PipeOutcome.ok →
      a.redirectStdout ≠ 0 → os.pipeStdoutOutcome = PipeOutcome.fail e →
      ∃ o, ForkAndExecProcess a os = SpawnResult.parentReturn o ∧
        o.ret = -1 ∧ o.errnoFinal = e ∧
        o.createdFds = [os.firstFd, os.firstFd + 1] ∧
        os.firstFd ∈ o.closedFds ∧ os.firstFd + 1 ∈ o.closedFds ∧
        (∀ fd ∈ o.createdFds, fd ∈ o.closedFds)) ∧
    (∀ e, 0 ≤ os.firstFd → validStart a os →
      a.redirectStdin ≠ 0 → os.pipeStdinOutcome = PipeOutcome.ok →
      a.redirectStdout ≠ 0 → os.pipeStdoutOutcome = PipeOutcome.ok →
      a.redirectStderr ≠ 0 → os.pipeStderrOutcome = PipeOutcome.fail e →
      ∃ o, ForkAndExecProcess a os = SpawnResult.parentReturn o ∧
        o.ret = -1 ∧ o.errnoFinal = e ∧
        o.createdFds = [os.firstFd, os.firstFd + 1, os.firstFd + 2, os.firstFd + 3] ∧
        (∀ fd ∈ o.createdFds, fd ∈ o.closedFds)) := by
  refine ⟨?_, ?_, ?_⟩
  · intro e hv h1 hp
    refine ⟨_, spawnEval_pipe1Fail a os e hv h1 hp,
      by simp [doneStep_ret], by simp [doneStep_errnoFinal_fail], ?_, ?_⟩
    · simp [doneStep_createdFds]
    · simp [doneStep_closedFds]
  · intro e hfd hv h1 hp1 h2 hp
    have e1 : 0 ≤ os.firstFd + 1 := by omega
    refine ⟨_, spawnEval_pipe2Fail a os e hv (fun _ => hp1) h2 hp,
      by simp [doneStep_ret], by simp [doneStep_errnoFinal_fail], ?_, ?_, ?_, ?_⟩
    · rw [doneStep_createdFds]
      simp [created1Of, h1]
    · rw [doneStep_closedFds]
      simp [sInOf, h1, filter_nonneg_cons, hfd, e1]
    · rw [doneStep_closedFds]
      simp [sInOf, h1, filter_nonneg_cons, hfd, e1]
    · rw [doneStep_createdFds, doneStep_closedFds]
      intro fd hmem
      simp [created1Of, h1] at hmem
      simp [sInOf, h1, filter_nonneg_cons, hfd, e1]
      omega
  · intro e hfd hv h1 hp1 h2 hp2 h3 hp
    have e1 : 0 ≤ os.firstFd + 1 := by omega
    have e2 : 0 ≤ os.firstFd + 2 := by omega
    have e3 : 0 ≤ os.firstFd + 3 := by omega
    refine ⟨_, spawnEval_pipe3Fail a os e hv (fun _ => hp1) (fun _ => hp2) h3 hp,
      by simp [doneStep_ret], by simp [doneStep_errnoFinal_fail], ?_, ?_⟩
    · rw [doneStep_createdFds]
      simp [created1Of, created2Of, stdoutBase, h1, h2]
      omega
    · rw [doneStep_createdFds, doneStep_closedFds]
      intro fd hmem
      simp [created1Of, created2Of, stdoutBase, h1, h2] at hmem
      simp [sInOf, sOutOf, stdoutBase, h1, h2, filter_nonneg_cons, hfd, e1, e2, e3]
      omega

/-- C1: on a successful call, each out descriptor is the parent-side end of
the corresponding pipe exactly when the redirect flag is set — the write end
of the stdin pipe for *stdinFd, the read end for *stdoutFd/*stderrFd — and
the sentinel -1 otherwise, so the number of non-sentinel descriptors equals
the number of flags set; and the parent has closed exactly the child-side
ends (read end of the stdin pipe, write ends of the stdout/stderr pipes) of
the allocated pipes, holding nothing else. -/
theorem c1_success_descriptors (a : Args) (os : OsBehavior) (pid : Int)
    (hfd : 0 ≤ os.firstFd) (hnull : a.noNullArgs)
    (hIn : boolFlag a.redirectStdin) (hOut : boolFlag a.redirectStdout)
    (hErr : boolFlag a.redirectStderr) (hacc : os.accessOk = true)
    (hp1 : a.redirectStdin ≠ 0 → os.pipeStdinOutcome = PipeOutcome.ok)
    (hp2 : a.redirectStdout ≠ 0 → os.pipeStdoutOutcome = PipeOutcome.ok)
    (hp3 : a.redirectStderr ≠ 0 → os.pipeStderrOutcome = PipeOutcome.ok)
    (hf : os.forkOutcome = ForkOutcome.parent pid) :
    ∃ o, ForkAndExecProcess a os = SpawnResult.parentReturn o ∧
      o.ret = 0 ∧
      lastStore o.stores OutPtr.childPid = some pid ∧
      lastStore o.stores OutPtr.stdinFd = some o.stdinFds.2 ∧
      lastStore o.stores OutPtr.stdoutFd = some o.stdoutFds.1 ∧
      lastStore o.stores OutPtr.stderrFd = some o.stderrFds.1 ∧
      hasNullStore o.stores = false ∧
      (a.redirectStdin = 1 → 0 ≤ o.stdinFds.1 ∧ o.stdinFds.2 = o.stdinFds.1 + 1) ∧
      (a.redirectStdin = 0 → o.stdinFds = (-1, -1)) ∧
      (a.redirectStdout = 1 → 0 ≤ o.stdoutFds.1 ∧ o.stdoutFds.2 = o.stdoutFds.1 + 1) ∧
      (a.redirectStdout = 0 → o.stdoutFds = (-1, -1)) ∧
      (a.redirectStderr = 1 → 0 ≤ o.stderrFds.1 ∧ o.stderrFds.2 = o.stderrFds.1 + 1) ∧
      (a.redirectStderr = 0 → o.stderrFds = (-1, -1)) ∧
      (0 ≤ o.stdinFds.2 ↔ a.redirectStdin = 1) ∧
      (0 ≤ o.stdoutFds.1 ↔ a.redirectStdout = 1) ∧
      (0 ≤ o.stderrFds.1 ↔ a.redirectStderr = 1) ∧
      ((if 0 ≤ o.stdinFds.2 then 1 else 0) + (if 0 ≤ o.stdoutFds.1 then 1 else 0)
        + (if 0 ≤ o.stderrFds.1 then 1 else 0) : Int) =
        ((if a.redirectStdin = 1 then 1 else 0)
          + (if a.redirectStdout = 1 then 1 else 0)
          + (if a.redirectStderr = 1 then 1 else 0)) ∧
      o.closedFds = [o.stdinFds.1, o.stdoutFds.2, o.stderrFds.2].filter
        (fun x => decide (0 ≤ x)) := by
  have hv : validStart a os := ⟨hnull, hIn, hOut, hErr, hacc⟩
  obtain ⟨n1, n2, n3, n4, n5, n6, n7⟩ := hnull
  have e1 : 0 ≤ os.firstFd + 1 := by omega
  have e2 : 0 ≤ os.firstFd + 2 := by omega
  have e3 : 0 ≤ os.firstFd + 3 := by omega
  have e4 : 0 ≤ os.firstFd + 4 := by omega
  have e5 : 0 ≤ os.firstFd + 5 := by omega
  refine ⟨_, spawnEval_forkParent a os pid hv hp1 hp2 hp3 hf, ?_⟩
  rcases hIn with h1 | h1 <;> rcases hOut with h2 | h2 <;> rcases hErr with h3 | h3 <;>
    simp [doneStep_ret, doneStep_stores, doneStep_stdinFds, doneStep_stdoutFds,
      doneStep_stderrFds, doneStep_closedFds, lastStore, hasNullStore, List.filter,
      sInOf, sOutOf, sErrOf, stdoutBase, stderrBase, h1, h2, h3, n4, n5, n6, n7,
      hfd, e1, e2, e3, e4, e5] <;>
    omega

/-! ### Child failure-site lemmas -/

lemma childRun_stdin_dup2_fail (a : Args) (os : OsBehavior)
    (sIn sOut sErr : Int × Int) (errno0 e : Int)
    (h1 : a.redirectStdin ≠ 0) (hc : os.dup2StdinCall.final = SysOutcome.fail e)
    (he : e ≠ EINTR) :
    (childRun a os sIn sOut sErr errno0).1 = ChildEnd.exited (exitStatus e) ∧
    (childRun a os sIn sOut sErr errno0).2.events =
      closeEvts sIn.2 ++ closeEvts sOut.1 ++ closeEvts sErr.1
        ++ [CEvent.dup2Step sIn.1 0] := by
  simp only [childRun]
  rw [childDup2_fail_of a.redirectStdin os.dup2StdinCall sIn.1 0 e _ h1 hc he]
  constructor
  · simp [Except.bind]
  · simp [Except.bind, CloseIfOpenChild_events, List.append_assoc]

lemma childRun_stdout_dup2_fail (a : Args) (os : OsBehavior)
    (sIn sOut sErr : Int × Int) (errno0 e rIn : Int)
    (hIn : os.dup2StdinCall.final = SysOutcome.ok rIn) (hIn2 : 0 ≤ rIn)
    (h2 : a.redirectStdout ≠ 0) (hc : os.dup2StdoutCall.final = SysOutcome.fail e)
    (he : e ≠ EINTR) :
    (childRun a os sIn sOut sErr errno0).1 = ChildEnd.exited (exitStatus e) ∧
    (childRun a os sIn sOut sErr errno0).2.events =
      closeEvts sIn.2 ++ closeEvts sOut.1 ++ closeEvts sErr.1
        ++ (if a.redirectStdin ≠ 0 then [CEvent.dup2Step sIn.1 0] else [])
        ++ [CEvent.dup2Step sOut.2 1] := by
  simp only [childRun]
  obtain ⟨sA, hA, hAe, _⟩ := childDup2_okEvents a.redirectStdin os.dup2StdinCall
    sIn.1 0 rIn _ hIn hIn2
  rw [hA]
  simp only [Except.bind]
  rw [childDup2_fail_of a.redirectStdout os.dup2StdoutCall sOut.2 1 e sA h2 hc he]
  constructor
  · simp [Except.bind]
  · simp [Except.bind, hAe, CloseIfOpenChild_events, List.append_assoc]

lemma childRun_stderr_dup2_fail (a : Args) (os : OsBehavior)
    (sIn sOut sErr : Int × Int) (errno0 e rIn rOut : Int)
    (hIn : os.dup2StdinCall.final = SysOutcome.ok rIn) (hIn2 : 0 ≤ rIn)
    (hOut : os.dup2StdoutCall.final = SysOutcome.ok rOut) (hOut2 : 0 ≤ rOut)
    (h3 : a.redirectStderr ≠ 0) (hc : os.dup2StderrCall.final = SysOutcome.fail e)
    (he : e ≠ EINTR) :
    (childRun a os sIn sOut sErr errno0).1 = ChildEnd.exited (exitStatus e) ∧
    (childRun a os sIn sOut sErr errno0).2.events =
      closeEvts sIn.2 ++ closeEvts sOut.1 ++ closeEvts sErr.1
        ++ (if a.redirectStdin ≠ 0 then [CEvent.dup2Step sIn.1 0] else [])
        ++ (if a.redirectStdout ≠ 0 then [CEvent.dup2Step sOut.2 1] else [])
        ++ [CEvent.dup2Step sErr.2 2] := by
  simp only [childRun]
  obtain ⟨sA, hA, hAe, _⟩ := childDup2_okEvents a.redirectStdin os.dup2StdinCall
    sIn.1 0 rIn _ hIn hIn2
  rw [hA]
  simp only [Except.bind]
  obtain ⟨sB, hB, hBe, _⟩ := childDup2_okEvents a.redirectStdout os.dup2StdoutCall
    sOut.2 1 rOut sA hOut hOut2
  rw [hB]
  simp only [Except.bind]
  rw [childDup2_fail_of a.redirectStderr os.dup2StderrCall sErr.2 2 e sB h3 hc he]
  constructor
  · simp [Except.bind]
  · simp [Except.bind, hBe, hAe, CloseIfOpenChild_events, List.append_assoc]

lemma childRun_chdir_fail (a : Args) (os : OsBehavior)
    (sIn sOut sErr : Int × Int) (errno0 e rIn rOut rErr : Int)
    (hIn : os.dup2StdinCall.final = SysOutcome.ok rIn) (hIn2 : 0 ≤ rIn)
    (hOut : os.dup2StdoutCall.final = SysOutcome.ok rOut) (hOut2 : 0 ≤ rOut)
    (hErr : os.dup2StderrCall.final = SysOutcome.ok rErr) (hErr2 : 0 ≤ rErr)
    (hcwd : a.cwdNull = false)
    (hc : os.chdirCall.final = SysOutcome.fail e) (he : e ≠ EINTR) :
    (childRun a os sIn sOut sErr errno0).1 = ChildEnd.exited (exitStatus e) ∧
    (childRun a os sIn sOut sErr errno0).2.events =
      closeEvts sIn.2 ++ closeEvts sOut.1 ++ closeEvts sErr.1
        ++ (if a.redirectStdin ≠ 0 then [CEvent.dup2Step sIn.1 0] else [])
        ++ (if a.redirectStdout ≠ 0 then [CEvent.dup2Step sOut.2 1] else [])
        ++ (if a.redirectStderr ≠ 0 then [CEvent.dup2Step sErr.2 2] else [])
        ++ closeEvts sIn.1 ++ closeEvts sOut.2 ++ closeEvts sErr.2
        ++ [CEvent.chdirStep] := by
  simp only [childRun]
  obtain ⟨sA, hA, hAe, _⟩ := childDup2_okEvents a.redirectStdin os.dup2StdinCall
    sIn.1 0 rIn _ hIn hIn2
  rw [hA]
  simp only [Except.bind]
  obtain ⟨sB, hB, hBe, _⟩ := childDup2_okEvents a.redirectStdout os.dup2StdoutCall
    sOut.2 1 rOut sA hOut hOut2
  rw [hB]
  simp only [Except.bind]
  obtain ⟨sC, hC, hCe, _⟩ := childDup2_okEvents a.redirectStderr os.dup2StderrCall
    sErr.2 2 rErr sB hErr hErr2
  rw [hC]
  simp only [Except.bind]
  simp only [Except.bind, hcwd, Bool.false_eq_true, if_false]
  rw [childRetryStep_fail_of os.chdirCall CEvent.chdirStep e _ hc he]
  constructor
  · simp
  · simp [hCe, hBe, hAe, CloseIfOpenChild_events, List.append_assoc]

lemma childRun_setsid_fail (a : Args) (os : OsBehavior)
    (sIn sOut sErr : Int × Int) (errno0 e rIn rOut rErr rc : Int)
    (hIn : os.dup2StdinCall.final = SysOutcome.ok rIn) (hIn2 : 0 ≤ rIn)
    (hOut : os.dup2StdoutCall.final = SysOutcome.ok rOut) (hOut2 : 0 ≤ rOut)
    (hErr : os.dup2StderrCall.final = SysOutcome.ok rErr) (hErr2 : 0 ≤ rErr)
    (hcd : os.chdirCall.final = SysOutcome.ok rc) (hcd2 : 0 ≤ rc)
    (hsess : Int.land a.creationFlags CREATE_NEW_PROCESS_SESSION ≠ 0)
    (hc : os.setsidCall.final = SysOutcome.fail e) (he : e ≠ EINTR) :
    (childRun a os sIn sOut sErr errno0).1 = ChildEnd.exited (exitStatus e) ∧
    (childRun a os sIn sOut sErr errno0).2.events =
      closeEvts sIn.2 ++ closeEvts sOut.1 ++ closeEvts sErr.1
        ++ (if a.redirectStdin ≠ 0 then [CEvent.dup2Step sIn.1 0] else [])
        ++ (if a.redirectStdout ≠ 0 then [CEvent.dup2Step sOut.2 1] else [])
        ++ (if a.redirectStderr ≠ 0 then [CEvent.dup2Step sErr.2 2] else [])
        ++ closeEvts sIn.1 ++ closeEvts sOut.2 ++ closeEvts sErr.2
        ++ (if a.cwdNull then [] else [CEvent.chdirStep])
        ++ [CEvent.setsidStep] := by
  simp only [childRun]
  obtain ⟨sA, hA, hAe, _⟩ := childDup2_okEvents a.redirectStdin os.dup2StdinCall
    sIn.1 0 rIn _ hIn hIn2
  rw [hA]
  simp only [Except.bind]
  obtain ⟨sB, hB, hBe, _⟩ := childDup2_okEvents a.redirectStdout os.dup2StdoutCall
    sOut.2 1 rOut sA hOut hOut2
  rw [hB]
  simp only [Except.bind]
  obtain ⟨sC, hC, hCe, _⟩ := childDup2_okEvents a.redirectStderr os.dup2StderrCall
    sErr.2 2 rErr sB hErr hErr2
  rw [hC]
  simp only [Except.bind]
  have hchdir : ∃ s8, (if a.cwdNull then Except.ok (CloseIfOpenChild os sErr.2
      (CloseIfOpenChild os sOut.2 (CloseIfOpenChild os sIn.1 sC)))
      else childRetryStep os.chdirCall CEvent.chdirStep (CloseIfOpenChild os sErr.2
        (CloseIfOpenChild os sOut.2 (CloseIfOpenChild os sIn.1 sC)))) = Except.ok s8 ∧
      s8.events = (CloseIfOpenChild os sErr.2 (CloseIfOpenChild os sOut.2
        (CloseIfOpenChild os sIn.1 sC))).events
        ++ (if a.cwdNull then [] else [CEvent.chdirStep]) := by
    by_cases h : a.cwdNull
    · exact ⟨_, if_pos h, by simp [h]⟩
    · have hstep := childRetryStep_ok_of os.chdirCall CEvent.chdirStep rc
        (CloseIfOpenChild os sErr.2 (CloseIfOpenChild os sOut.2
          (CloseIfOpenChild os sIn.1 sC))) hcd hcd2
      exact ⟨_, by rw [if_neg h, hstep], by simp [h]⟩
  obtain ⟨s8, h8, h8e⟩ := hchdir
  rw [h8]
  simp only [Except.bind]
  rw [if_pos hsess]
  rw [childRetryStep_fail_of os.setsidCall CEvent.setsidStep e s8 hc he]
  constructor
  · simp
  · simp [h8e, hCe, hBe, hAe, CloseIfOpenChild_events, List.append_assoc]

lemma childRun_execve_fail (a : Args) (os : OsBehavior)
    (sIn sOut sErr : Int × Int) (errno0 e rIn rOut rErr rc rs : Int)
    (hIn : os.dup2StdinCall.final = SysOutcome.ok rIn) (hIn2 : 0 ≤ rIn)
    (hOut : os.dup2StdoutCall.final = SysOutcome.ok rOut) (hOut2 : 0 ≤ rOut)
    (hErr : os.dup2StderrCall.final = SysOutcome.ok rErr) (hErr2 : 0 ≤ rErr)
    (hcd : os.chdirCall.final = SysOutcome.ok rc) (hcd2 : 0 ≤ rc)
    (hsd : os.setsidCall.final = SysOutcome.ok rs) (hsd2 : 0 ≤ rs)
    (hex : os.execveFailsWith = some e) :
    (childRun a os sIn sOut sErr errno0).1 = ChildEnd.exited (exitStatus e) ∧
    (childRun a os sIn sOut sErr errno0).2.events =
      canonicalChildEvents a sIn sOut sErr := by
  simp only [childRun]
  obtain ⟨sA, hA, hAe, _⟩ := childDup2_okEvents a.redirectStdin os.dup2StdinCall
    sIn.1 0 rIn _ hIn hIn2
  rw [hA]
  simp only [Except.bind]
  obtain ⟨sB, hB, hBe, _⟩ := childDup2_okEvents a.redirectStdout os.dup2StdoutCall
    sOut.2 1 rOut sA hOut hOut2
  rw [hB]
  simp only [Except.bind]
  obtain ⟨sC, hC, hCe, _⟩ := childDup2_okEvents a.redirectStderr os.dup2StderrCall
    sErr.2 2 rErr sB hErr hErr2
  rw [hC]
  simp only [Except.bind]
  have hchdir : ∃ s8, (if a.cwdNull then Except.ok (CloseIfOpenChild os sErr.2
      (CloseIfOpenChild os sOut.2 (CloseIfOpenChild os sIn.1 sC)))
      else childRetryStep os.chdirCall CEvent.chdirStep (CloseIfOpenChild os sErr.2
        (CloseIfOpenChild os sOut.2 (CloseIfOpenChild os sIn.1 sC)))) = Except.ok s8 ∧
      s8.events = (CloseIfOpenChild os sErr.2 (CloseIfOpenChild os sOut.2
        (CloseIfOpenChild os sIn.1 sC))).events
        ++ (if a.cwdNull then [] else [CEvent.chdirStep]) := by
    by_cases h : a.cwdNull
    · exact ⟨_, if_pos h, by simp [h]⟩
    · have hstep := childRetryStep_ok_of os.chdirCall CEvent.chdirStep rc
        (CloseIfOpenChild os sErr.2 (CloseIfOpenChild os sOut.2
          (CloseIfOpenChild os sIn.1 sC))) hcd hcd2
      exact ⟨_, by rw [if_neg h, hstep], by simp [h]⟩
  obtain ⟨s8, h8, h8e⟩ := hchdir
  rw [h8]
  simp only [Except.bind]
  have hsid : ∃ s9, (if Int.land a.creationFlags CREATE_NEW_PROCESS_SESSION ≠ 0 then
      childRetryStep os.setsidCall CEvent.setsidStep s8 else Except.ok s8) =
        Except.ok s9 ∧
      s9.events = s8.events ++
        (if Int.land a.creationFlags CREATE_NEW_PROCESS_SESSION ≠ 0 then
          [CEvent.setsidStep] else []) := by
    by_cases h : Int.land a.creationFlags CREATE_NEW_PROCESS_SESSION ≠ 0
    · have hstep := childRetryStep_ok_of os.setsidCall CEvent.setsidStep rs s8 hsd hsd2
      exact ⟨_, by rw [if_pos h, hstep], by simp [h]⟩
    · exact ⟨s8, by simp [h], by simp [h]⟩
  obtain ⟨s9, h9, h9e⟩ := hsid
  rw [h9]
  simp only [Except.bind]
  rw [hex]
  constructor
  · rfl
  · simp only [canonicalChildEvents, h9e, h8e, hCe, hBe, hAe,
      CloseIfOpenChild_events, List.append_assoc]
    simp

/-- C7: in the child branch the steps run in exactly the documented order —
close the parent-side pipe ends, dup2 each requested redirection onto slot
0/1/2, close the superseded originals, chdir if requested, setsid if
requested, execve — every retried call is transparent to EINTR interruption,
and a failure of a dup2, chdir, setsid or execve makes the child exit
immediately with the system error as its status, running nothing further. -/
theorem c7_child_order (a : Args) (os : OsBehavior) :
    (∀ (n : Nat) (e e0 : Int), e ≠ EINTR →
      retryWhileInterrupted n (SysOutcome.fail e) e0 = some (-1, e)) ∧
    (∀ (n : Nat) (r e0 : Int), 0 ≤ r →
      retryWhileInterrupted n (SysOutcome.ok r) e0 =
        some (r, if n = 0 then e0 else EINTR)) ∧
    (∀ rIn rOut rErr rc rs : Int, reachesChild a os →
      os.dup2StdinCall.final = SysOutcome.ok rIn → 0 ≤ rIn →
      os.dup2StdoutCall.final = SysOutcome.ok rOut → 0 ≤ rOut →
      os.dup2StderrCall.final = SysOutcome.ok rErr → 0 ≤ rErr →
      os.chdirCall.final = SysOutcome.ok rc → 0 ≤ rc →
      os.setsidCall.final = SysOutcome.ok rs → 0 ≤ rs →
      os.execveFailsWith = none →
      (ForkAndExecProcess a os).childTermination = some ChildEnd.execReplaced ∧
      (ForkAndExecProcess a os).childEvents =
        some (canonicalChildEvents a (sInOf a os) (sOutOf a os) (sErrOf a os))) ∧
    (∀ e : Int, reachesChild a os → a.redirectStdin ≠ 0 →
      os.dup2StdinCall.final = SysOutcome.fail e → e ≠ EINTR →
      (ForkAndExecProcess a os).childTermination =
        some (ChildEnd.exited (exitStatus e)) ∧
      (ForkAndExecProcess a os).childEvents =
        some (closeEvts (sInOf a os).2 ++ closeEvts (sOutOf a os).1
          ++ closeEvts (sErrOf a os).1 ++ [CEvent.dup2Step (sInOf a os).1 0])) ∧
    (∀ e rIn : Int, reachesChild a os →
      os.dup2StdinCall.final = SysOutcome.ok rIn → 0 ≤ rIn →
      a.redirectStdout ≠ 0 → os.dup2StdoutCall.final = SysOutcome.fail e →
      e ≠ EINTR →
      (ForkAndExecProcess a os).childTermination =
        some (ChildEnd.exited (exitStatus e)) ∧
      (ForkAndExecProcess a os).childEvents =
        some (closeEvts (sInOf a os).2 ++ closeEvts (sOutOf a os).1
          ++ closeEvts (sErrOf a os).1
          ++ (if a.redirectStdin ≠ 0 then [CEvent.dup2Step (sInOf a os).1 0] else [])
          ++ [CEvent.dup2Step (sOutOf a os).2 1])) ∧
    (∀ e rIn rOut : Int, reachesChild a os →
      os.dup2StdinCall.final = SysOutcome.ok rIn → 0 ≤ rIn →
      os.dup2StdoutCall.final = SysOutcome.ok rOut → 0 ≤ rOut →
      a.redirectStderr ≠ 0 → os.dup2StderrCall.final = SysOutcome.fail e →
      e ≠ EINTR →
      (ForkAndExecProcess a os).childTermination =
        some (ChildEnd.exited (exitStatus e)) ∧
      (ForkAndExecProcess a os).childEvents =
        some (closeEvts (sInOf a os).2 ++ closeEvts (sOutOf a os).1
          ++ closeEvts (sErrOf a os).1
          ++ (if a.redirectStdin ≠ 0 then [CEvent.dup2Step (sInOf a os).1 0] else [])
          ++ (if a.redirectStdout ≠ 0 then [CEvent.dup2Step (sOutOf a os).2 1] else [])
          ++ [CEvent.dup2Step (sErrOf a os).2 2])) ∧
    (∀ e rIn rOut rErr : Int, reachesChild a os →
      os.dup2StdinCall.final = SysOutcome.ok rIn → 0 ≤ rIn →
      os.dup2StdoutCall.final = SysOutcome.ok rOut → 0 ≤ rOut →
      os.dup2StderrCall.final = SysOutcome.ok rErr → 0 ≤ rErr →
      a.cwdNull = false → os.chdirCall.final = SysOutcome.fail e → e ≠ EINTR →
      (ForkAndExecProcess a os).childTermination =
        some (ChildEnd.exited (exitStatus e)) ∧
      (ForkAndExecProcess a os).childEvents =
        some (closeEvts (sInOf a os).2 ++ closeEvts (sOutOf a os).1
          ++ closeEvts (sErrOf a os).1
          ++ (if a.redirectStdin ≠ 0 then [CEvent.dup2Step (sInOf a os).1 0] else [])
          ++ (if a.redirectStdout ≠ 0 then [CEvent.dup2Step (sOutOf a os).2 1] else [])
          ++ (if a.redirectStderr ≠ 0 then [CEvent.dup2Step (sErrOf a os).2 2] else [])
          ++ closeEvts (sInOf a os).1 ++ closeEvts (sOutOf a os).2
          ++ closeEvts (sErrOf a os).2 ++ [CEvent.chdirStep])) ∧
    (∀ e rIn rOut rErr rc : Int, reachesChild a os →
      os.dup2StdinCall.final = SysOutcome.ok rIn → 0 ≤ rIn →
      os.dup2StdoutCall.final = SysOutcome.ok rOut → 0 ≤ rOut →
      os.dup2StderrCall.final = SysOutcome.ok rErr → 0 ≤ rErr →
      os.chdirCall.final = SysOutcome.ok rc → 0 ≤ rc →
      Int.land a.creationFlags CREATE_NEW_PROCESS_SESSION ≠ 0 →
      os.setsidCall.final = SysOutcome.fail e → e ≠ EINTR →
      (ForkAndExecProcess a os).childTermination =
        some (ChildEnd.exited (exitStatus e)) ∧
      (ForkAndExecProcess a os).childEvents =
        some (closeEvts (sInOf a os).2 ++ closeEvts (sOutOf a os).1
          ++ closeEvts (sErrOf a os).1
          ++ (if a.redirectStdin ≠ 0 then [CEvent.dup2Step (sInOf a os).1 0] else [])
          ++ (if a.redirectStdout ≠ 0 then [CEvent.dup2Step (sOutOf a os).2 1] else [])
          ++ (if a.redirectStderr ≠ 0 then [CEvent.dup2Step (sErrOf a os).2 2] else [])
          ++ closeEvts (sInOf a os).1 ++ closeEvts (sOutOf a os).2
          ++ closeEvts (sErrOf a os).2
          ++ (if a.cwdNull then [] else [CEvent.chdirStep])
          ++ [CEvent.setsidStep])) ∧
    (∀ e rIn rOut rErr rc rs : Int, reachesChild a os →
      os.dup2StdinCall.final = SysOutcome.ok rIn → 0 ≤ rIn →
      os.dup2StdoutCall.final = SysOutcome.ok rOut → 0 ≤ rOut →
      os.dup2StderrCall.final = SysOutcome.ok rErr → 0 ≤ rErr →
      os.chdirCall.final = SysOutcome.ok rc → 0 ≤ rc →
      os.setsidCall.final = SysOutcome.ok rs → 0 ≤ rs →
      os.execveFailsWith = some e →
      (ForkAndExecProcess a os).childTermination =
        some (ChildEnd.exited (exitStatus e)) ∧
      (ForkAndExecProcess a os).childEvents =
        some (canonicalChildEvents a (sInOf a os) (sOutOf a os) (sErrOf a os))) := by
  refine ⟨retry_fail, retry_ok, ?_, ?_, ?_, ?_, ?_, ?_, ?_⟩
  · intro rIn rOut rErr rc rs hr hIn hIn2 hOut hOut2 hErr hErr2 hcd hcd2 hsd hsd2 hex
    obtain ⟨hv, hq1, hq2, hq3, hfk⟩ := hr
    rw [spawnEval_forkChild a os hv hq1 hq2 hq3 hfk]
    obtain ⟨h1, h2⟩ := childRun_success a os (sInOf a os) (sOutOf a os) (sErrOf a os)
      os.initialErrno rIn rOut rErr rc rs hIn hIn2 hOut hOut2 hErr hErr2
      hcd hcd2 hsd hsd2 hex
    exact ⟨by simp [SpawnResult.childTermination, h1],
      by simp [SpawnResult.childEvents, h2]⟩
  · intro e hr h1 hc he
    obtain ⟨hv, hq1, hq2, hq3, hfk⟩ := hr
    rw [spawnEval_forkChild a os hv hq1 hq2 hq3 hfk]
    obtain ⟨hA, hB⟩ := childRun_stdin_dup2_fail a os (sInOf a os) (sOutOf a os)
      (sErrOf a os) os.initialErrno e h1 hc he
    exact ⟨by simp [SpawnResult.childTermination, hA],
      by simp [SpawnResult.childEvents, hB]⟩
  · intro e rIn hr hIn hIn2 h2 hc he
    obtain ⟨hv, hq1, hq2, hq3, hfk⟩ := hr
    rw [spawnEval_forkChild a os hv hq1 hq2 hq3 hfk]
    obtain ⟨hA, hB⟩ := childRun_stdout_dup2_fail a os (sInOf a os) (sOutOf a os)
      (sErrOf a os) os.initialErrno e rIn hIn hIn2 h2 hc he
    exact ⟨by simp [SpawnResult.childTermination, hA],
      by simp [SpawnResult.childEvents, hB]⟩
  · intro e rIn rOut hr hIn hIn2 hOut hOut2 h3 hc he
    obtain ⟨hv, hq1, hq2, hq3, hfk⟩ := hr
    rw [spawnEval_forkChild a os hv hq1 hq2 hq3 hfk]
    obtain ⟨hA, hB⟩ := childRun_stderr_dup2_fail a os (sInOf a os) (sOutOf a os)
      (sErrOf a os) os.initialErrno e rIn rOut hIn hIn2 hOut hOut2 h3 hc he
    exact ⟨by simp [SpawnResult.childTermination, hA],
      by simp [SpawnResult.childEvents, hB]⟩
  · intro e rIn rOut rErr hr hIn hIn2 hOut hOut2 hErr hErr2 hcwd hc he
    obtain ⟨hv, hq1, hq2, hq3, hfk⟩ := hr
    rw [spawnEval_forkChild a os hv hq1 hq2 hq3 hfk]
    obtain ⟨hA, hB⟩ := childRun_chdir_fail a os (sInOf a os) (sOutOf a os)
      (sErrOf a os) os.initialErrno e rIn rOut rErr hIn hIn2 hOut hOut2 hErr hErr2
      hcwd hc he
    exact ⟨by simp [SpawnResult.childTermination, hA],
      by simp [SpawnResult.childEvents, hB]⟩
  · intro e rIn rOut rErr rc hr hIn hIn2 hOut hOut2 hErr hErr2 hcd hcd2 hsess hc he
    obtain ⟨hv, hq1, hq2, hq3, hfk⟩ := hr
    rw [spawnEval_forkChild a os hv hq1 hq2 hq3 hfk]
    obtain ⟨hA, hB⟩ := childRun_setsid_fail a os (sInOf a os) (sOutOf a os)
      (sErrOf a os) os.initialErrno e rIn rOut rErr rc hIn hIn2 hOut hOut2 hErr hErr2
      hcd hcd2 hsess hc he
    exact ⟨by simp [SpawnResult.childTermination, hA],
      by simp [SpawnResult.childEvents, hB]⟩
  · intro e rIn rOut rErr rc rs hr hIn hIn2 hOut hOut2 hErr hErr2 hcd hcd2 hsd hsd2 hex
    obtain ⟨hv, hq1, hq2, hq3, hfk⟩ := hr
    rw [spawnEval_forkChild a os hv hq1 hq2 hq3 hfk]
    obtain ⟨hA, hB⟩ := childRun_execve_fail a os (sInOf a os) (sOutOf a os)
      (sErrOf a os) os.initialErrno e rIn rOut rErr rc rs hIn hIn2 hOut hOut2
      hErr hErr2 hcd hcd2 hsd hsd2 hex
    exact ⟨by simp [SpawnResult.childTermination, hA],
      by simp [SpawnResult.childEvents, hB]⟩

lemma mem_ite_singleton (c : Prop) [Decidable c] (x y : CEvent) :
    (x ∈ (if c then [y] else ([] : List CEvent))) ↔ (c ∧ x = y) := by
  split <;> simp_all

lemma mem_ite_nil_singleton (c : Prop) [Decidable c] (x y : CEvent) :
    (x ∈ (if c then ([] : List CEvent) else [y])) ↔ (¬ c ∧ x = y) := by
  split <;> simp_all

lemma setsid_mem_canonical (a : Args) (sIn sOut sErr : Int × Int) :
    CEvent.setsidStep ∈ canonicalChildEvents a sIn sOut sErr ↔
      Int.land a.creationFlags CREATE_NEW_PROCESS_SESSION ≠ 0 := by
  simp [canonicalChildEvents, closeEvts, List.mem_append, mem_ite_singleton,
    mem_ite_nil_singleton]

/-- C9: the creation-flags bitset has exactly one recognized bit, bit 0
(CREATE_NEW_PROCESS_SESSION = 0x1): two calls whose creation flags agree on
bit 0 behave identically whatever the other bits are, and on a run that
reaches execve the child performed setsid exactly when bit 0 was set. -/
theorem c9_creation_flags (a : Args) (os : OsBehavior) :
    (∀ f1 f2 : Int, f1 % 2 = f2 % 2 →
      ForkAndExecProcess { a with creationFlags := f1 } os =
        ForkAndExecProcess { a with creationFlags := f2 } os) ∧
    (∀ rIn rOut rErr rc rs : Int, reachesChild a os →
      os.dup2StdinCall.final = SysOutcome.ok rIn → 0 ≤ rIn →
      os.dup2StdoutCall.final = SysOutcome.ok rOut → 0 ≤ rOut →
      os.dup2StderrCall.final = SysOutcome.ok rErr → 0 ≤ rErr →
      os.chdirCall.final = SysOutcome.ok rc → 0 ≤ rc →
      os.setsidCall.final = SysOutcome.ok rs → 0 ≤ rs →
      os.execveFailsWith = none →
      (CEvent.setsidStep ∈ ((ForkAndExecProcess a os).childEvents.getD []) ↔
        a.creationFlags % 2 = 1)) := by
  constructor
  · intro f1 f2 h
    have hl : Int.land f1 CREATE_NEW_PROCESS_SESSION =
        Int.land f2 CREATE_NEW_PROCESS_SESSION := by
      simp only [CREATE_NEW_PROCESS_SESSION, land_one_eq_emod, h]
    simp only [ForkAndExecProcess, childRun, doneStep]
    rw [hl]
  · intro rIn rOut rErr rc rs hr hIn hIn2 hOut hOut2 hErr hErr2 hcd hcd2 hsd hsd2 hex
    obtain ⟨hv, hq1, hq2, hq3, hfk⟩ := hr
    rw [spawnEval_forkChild a os hv hq1 hq2 hq3 hfk]
    obtain ⟨h1, h2⟩ := childRun_success a os (sInOf a os) (sOutOf a os) (sErrOf a os)
      os.initialErrno rIn rOut rErr rc rs hIn hIn2 hOut hOut2 hErr hErr2
      hcd hcd2 hsd hsd2 hex
    simp only [SpawnResult.childEvents, h2, Option.getD_some]
    rw [setsid_mem_canonical]
    simp only [CREATE_NEW_PROCESS_SESSION, land_one_eq_emod]
    omega

lemma pipeClause_ok_inv (r : Int) (o : PipeOutcome) (fd : Int)
    (p : Int × Int) (n : Int) (c : List Int)
    (h : pipeClause r o fd = Except.ok (p, n, c)) :
    (p = (fd, fd + 1) ∧ n = fd + 2) ∨ (p = (-1, -1) ∧ n = fd) := by
  unfold pipeClause at h
  split at h
  · split at h
    · simp only [Except.ok.injEq, Prod.mk.injEq] at h
      exact Or.inl ⟨h.1.symm, h.2.1.symm⟩
    · exact absurd h (by simp)
  · simp only [Except.ok.injEq, Prod.mk.injEq] at h
    exact Or.inr ⟨h.1.symm, h.2.1.symm⟩

set_option maxHeartbeats 2000000 in
/-- C8: on every execution path — parent success, every parent failure, and
the child branch — each descriptor is passed to close() at most once, and
CloseIfOpen is a no-op on the sentinel -1. -/
theorem c8_close_at_most_once (a : Args) (os : OsBehavior) :
    (∀ o, ForkAndExecProcess a os = SpawnResult.parentReturn o →
      o.closedFds.Nodup) ∧
    (∀ fdsIn fdsOut fdsErr c st,
      ForkAndExecProcess a os = SpawnResult.childBranch fdsIn fdsOut fdsErr c st →
      st.closed.Nodup) ∧
    (∀ p : Int × List Int, CloseIfOpenParent os (-1) p = p) ∧
    (∀ s : ChildState, CloseIfOpenChild os (-1) s = s) := by
  refine ⟨?_, ?_, ?_, ?_⟩
  · intro o h
    unfold ForkAndExecProcess at h
    split at h
    · injection h with h
      rw [← h, doneStep_closedFds]
      exact nodup_filter_nonneg _ (by simp [List.pairwise_cons] <;> omega)
    · split at h
      · injection h with h
        rw [← h, doneStep_closedFds]
        exact nodup_filter_nonneg _ (by simp [List.pairwise_cons] <;> omega)
      · split at h
        · injection h with h
          rw [← h, doneStep_closedFds]
          exact nodup_filter_nonneg _ (by simp [List.pairwise_cons] <;> omega)
        · split at h
          · injection h with h
            rw [← h, doneStep_closedFds]
            exact nodup_filter_nonneg _ (by simp [List.pairwise_cons] <;> omega)
          · rename_i sIn fd1 c1 heq1
            split at h
            · injection h with h
              rw [← h, doneStep_closedFds]
              rcases pipeClause_ok_inv _ _ _ _ _ _ heq1 with ⟨hp, hn⟩ | ⟨hp, hn⟩ <;>
                subst hp <;>
                exact nodup_filter_nonneg _ (by simp [List.pairwise_cons] <;> omega)
            · rename_i sOut fd2 c2 heq2
              split at h
              · injection h with h
                rw [← h, doneStep_closedFds]
                rcases pipeClause_ok_inv _ _ _ _ _ _ heq1 with ⟨hp1, hn1⟩ | ⟨hp1, hn1⟩ <;>
                  rcases pipeClause_ok_inv _ _ _ _ _ _ heq2 with ⟨hp2, hn2⟩ | ⟨hp2, hn2⟩ <;>
                  subst hp1 <;> subst hp2 <;> subst hn1 <;>
                  exact nodup_filter_nonneg _ (by simp [List.pairwise_cons] <;> omega)
              · rename_i sErr fd3 c3 heq3
                split at h
                · injection h with h
                  rw [← h, doneStep_closedFds]
                  rcases pipeClause_ok_inv _ _ _ _ _ _ heq1 with ⟨hp1, hn1⟩ | ⟨hp1, hn1⟩ <;>
                    rcases pipeClause_ok_inv _ _ _ _ _ _ heq2 with ⟨hp2, hn2⟩ | ⟨hp2, hn2⟩ <;>
                    rcases pipeClause_ok_inv _ _ _ _ _ _ heq3 with ⟨hp3, hn3⟩ | ⟨hp3, hn3⟩ <;>
                    subst hp1 <;> subst hp2 <;> subst hp3 <;> subst hn1 <;> subst hn2 <;>
                    exact nodup_filter_nonneg _ (by simp [List.pairwise_cons] <;> omega)
                · exact absurd h (by simp)
                · injection h with h
                  rw [← h, doneStep_closedFds]
                  rcases pipeClause_ok_inv _ _ _ _ _ _ heq1 with ⟨hp1, hn1⟩ | ⟨hp1, hn1⟩ <;>
                    rcases pipeClause_ok_inv _ _ _ _ _ _ heq2 with ⟨hp2, hn2⟩ | ⟨hp2, hn2⟩ <;>
                    rcases pipeClause_ok_inv _ _ _ _ _ _ heq3 with ⟨hp3, hn3⟩ | ⟨hp3, hn3⟩ <;>
                    subst hp1 <;> subst hp2 <;> subst hp3 <;> subst hn1 <;> subst hn2 <;>
                    exact nodup_filter_nonneg _ (by simp [List.pairwise_cons] <;> omega)
  · intro fdsIn fdsOut fdsErr c st h
    unfold ForkAndExecProcess at h
    split at h
    · exact absurd h (by simp)
    · split at h
      · exact absurd h (by simp)
      · split at h
        · exact absurd h (by simp)
        · split at h
          · exact absurd h (by simp)
          · rename_i sIn fd1 c1 heq1
            split at h
            · exact absurd h (by simp)
            · rename_i sOut fd2 c2 heq2
              split at h
              · exact absurd h (by simp)
              · rename_i sErr fd3 c3 heq3
                split at h
                · exact absurd h (by simp)
                · injection h with h1 h2 h3 h4 h5
                  rw [← h5]
                  rcases childRun_closed_cases a os sIn sOut sErr os.initialErrno with
                    hcl | hcl <;>
                    rw [hcl] <;>
                    rcases pipeClause_ok_inv _ _ _ _ _ _ heq1 with ⟨hp1, hn1⟩ | ⟨hp1, hn1⟩ <;>
                    rcases pipeClause_ok_inv _ _ _ _ _ _ heq2 with ⟨hp2, hn2⟩ | ⟨hp2, hn2⟩ <;>
                    rcases pipeClause_ok_inv _ _ _ _ _ _ heq3 with ⟨hp3, hn3⟩ | ⟨hp3, hn3⟩ <;>
                    subst hp1 <;> subst hp2 <;> subst hp3 <;> subst hn1 <;> subst hn2 <;>
                    exact nodup_filter_nonneg _ (by simp [List.pairwise_cons] <;> omega)
                · exact absurd h (by simp)
  · intro p
    simp [CloseIfOpenParent]
  · intro s
    simp [CloseIfOpenChild]

/-- C10: a call whose childPid out pointer is null is rejected with EINVAL
and returns -1, but the unified failure path then stores -1 through all four
out pointers unconditionally — including the null childPid pointer.  The
fourth store below has targetNull = true: the code dereferences a null
pointer on this path (undefined behavior), so the failure path does not
avoid stores through null out pointers. -/
theorem c10_null_out_pointer_store :
    ∃ o, ForkAndExecProcess argsNullPid osParent = SpawnResult.parentReturn o ∧
      o.ret = -1 ∧ o.errnoFinal = EINVAL ∧
      o.stores = [⟨OutPtr.stdinFd, false, -1⟩, ⟨OutPtr.stdoutFd, false, -1⟩,
        ⟨OutPtr.stderrFd, false, -1⟩, ⟨OutPtr.childPid, true, -1⟩] ∧
      hasNullStore o.stores = true := by
  refine ⟨_, rfl, ?_, ?_, ?_, ?_⟩ <;> decide

/-! ### Witnesses -/

theorem c1_success_descriptors_witness :
    ∃ o, ForkAndExecProcess argsFull osParent = SpawnResult.parentReturn o ∧
      o.ret = 0 := by
  obtain ⟨o, h1, h2, _⟩ := c1_success_descriptors argsFull osParent 42
    (by decide)
    (by simp [Args.noNullArgs, argsFull])
    (by simp [boolFlag, argsFull]) (by simp [boolFlag, argsFull])
    (by simp [boolFlag, argsFull]) rfl
    (fun _ => rfl) (fun _ => rfl) (fun _ => rfl) rfl
  exact ⟨o, h1, h2⟩

theorem c2_failure_cleanup_witness :
    ∃ o, ForkAndExecProcess argsFull osForkFail = SpawnResult.parentReturn o ∧
      o.cleanFailure :=
  (c2_failure_cleanup argsFull osForkFail).2.2.2.2.2.2 11 (by decide)
    (by simp [validStart, Args.noNullArgs, boolFlag, argsFull, osForkFail, osParent])
    (fun _ => rfl) (fun _ => rfl) (fun _ => rfl) rfl

theorem c3_partial_pipe_cleanup_witness :
    ∃ o, ForkAndExecProcess argsFull osPipe2Fail = SpawnResult.parentReturn o ∧
      o.ret = -1 ∧ o.errnoFinal = 24 ∧
      (∀ fd ∈ o.createdFds, fd ∈ o.closedFds) := by
  obtain ⟨o, h1, h2, h3, h4, h5, h6, h7⟩ :=
    (c3_partial_pipe_cleanup argsFull osPipe2Fail).2.1 24 (by decide)
      (by simp [validStart, Args.noNullArgs, boolFlag, argsFull, osPipe2Fail, osParent])
      (by simp [argsFull]) rfl (by simp [argsFull]) rfl
  exact ⟨o, h1, h2, h3, h7⟩

theorem c4_invalid_args_reject_witness :
    ∃ o, ForkAndExecProcess argsBadFlag osParent = SpawnResult.parentReturn o ∧
      o.ret = -1 ∧ o.errnoFinal = EINVAL ∧ o.createdFds = [] ∧
      o.accessCalled = false ∧ o.forkCalled = false := by
  obtain ⟨o, h1, h2, h3, h4, h5, h6, h7⟩ :=
    (c4_invalid_args_reject argsBadFlag osParent).2
      (by simp [Args.noNullArgs, argsBadFlag, argsFull])
      (Or.inl (by simp [boolFlag, argsBadFlag, argsFull]))
  exact ⟨o, h1, h2, h3, h4, h5, h6⟩

theorem c5_preflight_before_fork_witness :
    ∃ o, ForkAndExecProcess argsFull osAccessFail = SpawnResult.parentReturn o ∧
      o.ret = -1 ∧ o.errnoFinal = osAccessFail.accessErrno ∧
      o.accessCalled = true ∧ o.forkCalled = false := by
  obtain ⟨o, h1, h2, h3, h4, h5, _⟩ :=
    (c5_preflight_before_fork argsFull osAccessFail).1
      (by simp [Args.noNullArgs, argsFull])
      (by simp [boolFlag, argsFull]) (by simp [boolFlag, argsFull])
      (by simp [boolFlag, argsFull]) rfl
  exact ⟨o, h1, h2, h3, h4, h5⟩

theorem c6_errno_preserved_witness :
    ∃ o, ForkAndExecProcess argsFull osForkFail = SpawnResult.parentReturn o ∧
      o.ret = -1 ∧ o.errnoFinal = 11 :=
  (c6_errno_preserved argsFull osForkFail).2.2.2.2.2.2 11
    (by simp [validStart, Args.noNullArgs, boolFlag, argsFull, osForkFail, osParent])
    (fun _ => rfl) (fun _ => rfl) (fun _ => rfl) rfl

theorem c7_child_order_witness :
    (ForkAndExecProcess argsFull osChild).childTermination =
      some ChildEnd.execReplaced ∧
    (ForkAndExecProcess argsFull osChild).childEvents =
      some (canonicalChildEvents argsFull (sInOf argsFull osChild)
        (sOutOf argsFull osChild) (sErrOf argsFull osChild)) :=
  (c7_child_order argsFull osChild).2.2.1 0 1 2 0 7
    ⟨by simp [validStart, Args.noNullArgs, boolFlag, argsFull, osChild],
      fun _ => rfl, fun _ => rfl, fun _ => rfl, rfl⟩
    rfl (by decide) rfl (by decide) rfl (by decide) rfl (by decide) rfl
    (by decide) rfl

theorem c8_close_at_most_once_witness :
    (∀ p : Int × List Int, CloseIfOpenParent osParent (-1) p = p) ∧
    ∃ o, ForkAndExecProcess argsFull osForkFail = SpawnResult.parentReturn o ∧
      o.closedFds.Nodup := by
  have heq := spawnEval_forkFail argsFull osForkFail 11
    (by simp [validStart, Args.noNullArgs, boolFlag, argsFull, osForkFail, osParent])
    (fun _ => rfl) (fun _ => rfl) (fun _ => rfl) rfl
  exact ⟨(c8_close_at_most_once argsFull osParent).2.2.1,
    ⟨_, heq, (c8_close_at_most_once argsFull osForkFail).1 _ heq⟩⟩

theorem c9_creation_flags_witness :
    (ForkAndExecProcess { argsFull with creationFlags := 1 } osParent =
      ForkAndExecProcess { argsFull with creationFlags := 5 } osParent) ∧
    (CEvent.setsidStep ∈ ((ForkAndExecProcess argsFull osChild).childEvents.getD [])
      ↔ argsFull.creationFlags % 2 = 1) := by
  constructor
  · exact (c9_creation_flags argsFull osParent).1 1 5 (by decide)
  · exact (c9_creation_flags argsFull osChild).2 0 1 2 0 7
      ⟨by simp [validStart, Args.noNullArgs, boolFlag, argsFull, osChild],
        fun _ => rfl, fun _ => rfl, fun _ => rfl, rfl⟩
      rfl (by decide) rfl (by decide) rfl (by decide) rfl (by decide) rfl
      (by decide) rfl

end CreateProcess
